import Mathlib

/-!
# go-ch-manager: query execution, row decoding and stats correlation

A shallow embedding of

* `entity/ch_connection.go` (the data model),
* `internal/repository/clickhouse/client.go` (`getConnection`,
  `ExecuteQueryWithStats`, `ExecuteQueryWithResults`,
  `GetTables`, `GetCreateSQL`, `GetServerInfo`, `GetSchema`, `Ping`),
* `internal/repository/sqlite/connection.go` (`FindByID`),
* `internal/usecase/ch_manager_usecase.go` (`CompareQueries`, `ExecuteQuery`,
  `GetSchema`, `GetConnectionStatus`).

The engine is outside the program.  Everything the driver hands back during
one session (the result of opening it, the generated query identifier, the
answer to the target query, the clock reading, the answer to the flush and to
the log probe) is collected in a `Run`; an operation is a function of the
`Run` that returns the Go result pair together with the trace of the calls it
made on the session.  Quantifying over every `Run` covers every behaviour of
the engine.

Machine integers: `uint64` values are natural numbers, `int64` values are
integers, and the conversion `int64(x)` of a `uint64` is `int64OfUint64`.
The debugging calls `helper.DumpWithTitle` print to the console only and are
left out.
-/

set_option autoImplicit false

namespace ChManager

/-! ## Data model (`entity/ch_connection.go`) -/

/-- A Go `error` value, identified by its message. -/
abbrev Error := String

/-- The connection profile `entity.CHConnection`. -/
structure CHConnection where
  ID : Int
  Name : String
  Host : String
  Port : Int
  Username : String
  Password : String
  Database : String
  Protocol : String
  UseSSL : Bool
  CreatedAt : Int
  UpdatedAt : Int
  deriving DecidableEq, Repr

/-- The record `entity.QueryStats`: `ExecutionTimeMs` is an `int64`, the other
fields are `uint64`. -/
structure QueryStats where
  ExecutionTimeMs : Int
  RowsRead : Nat
  BytesRead : Nat
  MemoryPeak : Nat
  PartsRead : Nat
  MarksRead : Nat
  deriving DecidableEq, Repr

/-- A dynamically typed cell of a result set (a Go `interface{}` produced by
the driver). -/
inductive Value where
  | int (i : Int)
  | uint (n : Nat)
  | str (s : String)
  | bool (b : Bool)
  | time (unixNano : Int)
  | null
  | array (items : List Value)
  deriving Repr

/-- A Go `map[string]interface{}`: at most one entry per key. -/
abbrev RowMap := List (String × Value)

/-- The assignment `m[k] = v` on a Go map: an existing entry for `k` is
overwritten, otherwise a new entry is added. -/
def RowMap.assign : RowMap → String → Value → RowMap
  | [], k, v => [(k, v)]
  | (k', v') :: rest, k, v =>
    if k' = k then (k, v) :: rest else (k', v') :: RowMap.assign rest k v

/-- The lookup `m[k]` on a Go map. -/
def RowMap.index : RowMap → String → Option Value
  | [], _ => none
  | (k', v') :: rest, k => if k' = k then some v' else RowMap.index rest k

/-- The record `entity.QueryResult`; `Stats` is a pointer. -/
structure QueryResult where
  Columns : List String
  Rows : List RowMap
  Stats : Option QueryStats
  deriving Repr

/-- The record `entity.CompareResult`; both fields are pointers. -/
structure CompareResult where
  Query1Stats : Option QueryStats
  Query2Stats : Option QueryStats
  deriving DecidableEq, Repr

/-! ## The driver boundary -/

/-- The wire protocol `clickhouse.Protocol`. -/
inductive DriverProtocol where
  | Native
  | HTTP
  deriving DecidableEq, Repr

/-- The part of `clickhouse.Options` that `getConnection` fills in.  `TLS` is
`some b` when a `tls.Config` with `InsecureSkipVerify = b` is set. -/
structure Options where
  Addr : List String
  Database : String
  Username : String
  Password : String
  Protocol : DriverProtocol
  TLS : Option Bool
  Debug : Bool
  deriving DecidableEq, Repr

/-- The options `getConnection` builds from a profile before calling
`clickhouse.Open`. -/
def getConnection (conn : CHConnection) : Options :=
  { Addr := [conn.Host ++ ":" ++ toString conn.Port]
    Database := conn.Database
    Username := conn.Username
    Password := conn.Password
    Protocol := if conn.Protocol = "http" then DriverProtocol.HTTP else DriverProtocol.Native
    TLS := if conn.UseSSL then some true else none
    Debug := false }

/-- A call the program makes on the driver. -/
inductive Event where
  | sessionOpen (opts : Options)
  | query (queryID : Option String) (sql : String) (args : List String)
  | cursorClose
  | exec (sql : String)
  | queryRow (sql : String) (args : List String)
  | ping
  | sessionClose
  deriving DecidableEq, Repr

/-- The cursor `driver.Rows` the target query returns: the column names, the
outcome of `Scan` on each row `Next` delivers (an error, or the values left in
the holders, one per holder), and the terminal error `Err()` reports. -/
structure Cursor where
  columns : List String
  rows : List (Except Error (List Value))
  err : Option Error

/-- One row of `system.query_log` as the probe selects it: six `UInt64`
columns. -/
structure LogRow where
  qDuration : Nat
  readRows : Nat
  readBytes : Nat
  memoryUsage : Nat
  parts : Nat
  marks : Nat
  deriving DecidableEq, Repr

/-- What the engine answers to the log probe. -/
inductive ProbeResponse where
  | row (r : LogRow)
  | noRows
  | failed (e : Error)
  deriving DecidableEq, Repr

/-- The outcome of `db.QueryRow(...).Scan(...)`: with no row the driver reports
`sql.ErrNoRows`. -/
def ProbeResponse.scan : ProbeResponse → Except Error LogRow
  | .row r => .ok r
  | .noRows => .error "sql: no rows in result set"
  | .failed e => .error e

/-- Everything the driver hands back during one session. -/
structure Run where
  /-- the error of `clickhouse.Open`, if any -/
  openErr : Option Error
  /-- the value of `uuid.New().String()` -/
  queryID : String
  /-- the answer to `db.Query(ctxQuery, query)` -/
  queryRes : Except Error Cursor
  /-- the value of `time.Since(start).Milliseconds()`, an `int64` -/
  elapsedMs : Int
  /-- the error of `db.Exec(ctx, "SYSTEM FLUSH LOGS")`, if any -/
  flushErr : Option Error
  /-- the answer to the log probe -/
  probe : ProbeResponse

/-- A Go result pair `(*α, error)` together with the calls made on the
driver, in order. -/
structure Outcome (α : Type) where
  value : Option α
  err : Option Error
  trace : List Event

/-- The Go conversion `int64(x)` of a `uint64`: two's complement
reinterpretation. -/
def int64OfUint64 (x : Nat) : Int :=
  if x % 2 ^ 64 < 2 ^ 63 then ((x % 2 ^ 64 : Nat) : Int) else ((x % 2 ^ 64 : Nat) : Int) - 2 ^ 64

/-! ## `internal/repository/clickhouse/client.go` -/

/-- The statement that forces the engine to write its query log. -/
def flushSQL : String := "SYSTEM FLUSH LOGS"

/-- The query text the log probe excludes. -/
def probeExcludedQuery : String := "SELECT displayName(), version(), revision(), timezone()"

/-- The log probe `statsQuery`, the same literal in both operations. -/
def statsQuery : String :=
  "\n\t\tSELECT\n\t\t\tquery_duration_ms,\n\t\t\tread_rows,\n\t\t\tread_bytes,\n\t\t\tmemory_usage,\n" ++
  "\t\t\tProfileEvents['SelectedParts'] as parts,\n\t\t\tProfileEvents['SelectedMarks'] as marks\n" ++
  "\t\tFROM system.query_log\n\t\tWHERE type = 'QueryFinish' \n\t\t\tAND query_id = ? \n" ++
  "\t\t\tAND query != '" ++ probeExcludedQuery ++ "'\n\t\tLIMIT 1\n\t"

/-- `clientImpl.ExecuteQueryWithStats`. -/
def ExecuteQueryWithStats (run : Run) (conn : CHConnection) (query : String) :
    Outcome QueryStats :=
  match run.openErr with
  | some e => { value := none, err := some e, trace := [] }
  | none =>
    let opened := [Event.sessionOpen (getConnection conn)]
    match run.queryRes with
    | .error e =>
      { value := none, err := some e
        trace := opened ++ [Event.query (some run.queryID) query [], Event.sessionClose] }
    | .ok _ =>
      let duration := run.elapsedMs
      let issued := opened ++ [Event.query (some run.queryID) query [], Event.cursorClose,
        Event.exec flushSQL, Event.queryRow statsQuery [run.queryID]]
      match run.probe.scan with
      | .error _ =>
        { value := some { ExecutionTimeMs := duration, RowsRead := 0, BytesRead := 0,
                          MemoryPeak := 0, PartsRead := 0, MarksRead := 0 }
          err := none
          trace := issued ++ [Event.sessionClose] }
      | .ok r =>
        { value := some { ExecutionTimeMs := int64OfUint64 r.qDuration, RowsRead := r.readRows,
                          BytesRead := r.readBytes, MemoryPeak := r.memoryUsage,
                          PartsRead := r.parts, MarksRead := 0 }
          err := none
          trace := issued ++ [Event.sessionClose] }

/-- The inner loop of the decoder: `rowMap[col] = val` for every column, in
column order, `val` being the value in the holder of the same position. -/
def buildRowMap (columns : List String) (vals : List Value) : RowMap :=
  (columns.zip vals).foldl (fun m cv => RowMap.assign m cv.1 cv.2) []

/-- The row loop of `ExecuteQueryWithResults`: `acc` is `result.Rows` so far;
the first failing `Scan` ends the loop with its error. -/
def scanLoop (columns : List String) :
    List (Except Error (List Value)) → List RowMap → Except Error (List RowMap)
  | [], acc => .ok acc
  | .error e :: _, _ => .error e
  | .ok vals :: rest, acc => scanLoop columns rest (acc ++ [buildRowMap columns vals])

/-- `clientImpl.ExecuteQueryWithResults`. -/
def ExecuteQueryWithResults (run : Run) (conn : CHConnection) (query : String) :
    Outcome QueryResult :=
  match run.openErr with
  | some e => { value := none, err := some e, trace := [] }
  | none =>
    let opened := [Event.sessionOpen (getConnection conn)]
    match run.queryRes with
    | .error e =>
      { value := none, err := some e
        trace := opened ++ [Event.query (some run.queryID) query [], Event.sessionClose] }
    | .ok rows =>
      let columns := rows.columns
      match scanLoop columns rows.rows [] with
      | .error e =>
        { value := none, err := some e
          trace := opened ++ [Event.query (some run.queryID) query [], Event.cursorClose,
            Event.sessionClose] }
      | .ok decoded =>
        match rows.err with
        | some e =>
          { value := none, err := some e
            trace := opened ++ [Event.query (some run.queryID) query [], Event.cursorClose,
              Event.sessionClose] }
        | none =>
          let duration := run.elapsedMs
          let issued := opened ++ [Event.query (some run.queryID) query [], Event.cursorClose,
            Event.exec flushSQL, Event.queryRow statsQuery [run.queryID]]
          let fallback : QueryStats :=
            { ExecutionTimeMs := duration, RowsRead := 0, BytesRead := 0, MemoryPeak := 0,
              PartsRead := 0, MarksRead := 0 }
          let stats : QueryStats :=
            match run.probe.scan with
            | .error _ => fallback
            | .ok r =>
              { ExecutionTimeMs := int64OfUint64 r.qDuration, RowsRead := r.readRows,
                BytesRead := r.readBytes, MemoryPeak := r.memoryUsage, PartsRead := r.parts,
                MarksRead := r.marks }
          { value := some { Columns := columns, Rows := decoded, Stats := some stats }
            err := none
            trace := issued ++ [Event.sessionClose] }

/-! ## `internal/usecase/ch_manager_usecase.go` -/

/-- `ConnectionUsecase.CompareQueries`.  `found` is what `repo.FindByID`
returned; `run1` and `run2` are the engine's behaviour during the session of
the first and of the second `ExecuteQueryWithStats` call. -/
def CompareQueries (found : Option CHConnection × Option Error) (run1 run2 : Run)
    (query1 query2 : String) : Outcome CompareResult :=
  match found with
  | (_, some e) => { value := none, err := some e, trace := [] }
  | (none, none) => { value := none, err := none, trace := [] }
  | (some conn, none) =>
    let first := ExecuteQueryWithStats run1 conn query1
    match first.err with
    | some e => { value := none, err := some e, trace := first.trace }
    | none =>
      let second := ExecuteQueryWithStats run2 conn query2
      match second.err with
      | some e => { value := none, err := some e, trace := first.trace ++ second.trace }
      | none =>
        { value := some { Query1Stats := first.value, Query2Stats := second.value }
          err := none
          trace := first.trace ++ second.trace }

/-! ## Observations on traces and concrete runs -/

/-- An `Exec` statement (the only one the client issues is the log flush). -/
def Event.isExec : Event → Bool
  | .exec _ => true
  | _ => false

/-- A `QueryRow` statement (the only one these operations issue is the log
probe). -/
def Event.isQueryRow : Event → Bool
  | .queryRow _ _ => true
  | _ => false

/-- A session being opened. -/
def Event.isSessionOpen : Event → Bool
  | .sessionOpen _ => true
  | _ => false

/-- A `Query` statement. -/
def Event.isQuery : Event → Bool
  | .query _ _ _ => true
  | _ => false

/-- The stats the operations fall back to when the probe gives no row: only
the wall-clock duration is set. -/
def degradedStats (elapsedMs : Int) : QueryStats :=
  { ExecutionTimeMs := elapsedMs, RowsRead := 0, BytesRead := 0, MemoryPeak := 0,
    PartsRead := 0, MarksRead := 0 }

/-- A profile with an empty database, used in the concrete runs below. -/
def demoConn : CHConnection :=
  { ID := 1, Name := "local", Host := "localhost", Port := 9000, Username := "default",
    Password := "", Database := "", Protocol := "native", UseSSL := false,
    CreatedAt := 0, UpdatedAt := 0 }

/-- A two-column, two-row cursor of mixed types without errors. -/
def demoCursor : Cursor :=
  { columns := ["a", "b"]
    rows := [.ok [Value.int 1, Value.str "x"], .ok [Value.int 2, Value.null]]
    err := none }

/-- A log row with small values. -/
def demoLogRow : LogRow :=
  { qDuration := 42, readRows := 10, readBytes := 20, memoryUsage := 30, parts := 4, marks := 7 }

/-- A log row whose duration does not fit a signed 64-bit integer. -/
def hugeLogRow : LogRow :=
  { qDuration := 2 ^ 63, readRows := 10, readBytes := 20, memoryUsage := 30, parts := 4,
    marks := 7 }

/-- A run in which everything succeeds and the probe returns `demoLogRow`. -/
def matchedRun : Run :=
  { openErr := none, queryID := "q-1", queryRes := .ok demoCursor, elapsedMs := 12,
    flushErr := none, probe := .row demoLogRow }

/-- A run in which the probe returns `hugeLogRow`. -/
def hugeRun : Run :=
  { openErr := none, queryID := "q-2", queryRes := .ok demoCursor, elapsedMs := 12,
    flushErr := none, probe := .row hugeLogRow }

/-- A run in which the probe finds no row. -/
def missedRun : Run :=
  { openErr := none, queryID := "q-3", queryRes := .ok demoCursor, elapsedMs := 12,
    flushErr := none, probe := .noRows }

/-- A run in which the target query is rejected by the engine. -/
def failedQueryRun : Run :=
  { openErr := none, queryID := "q-4", queryRes := .error "code: 62, syntax error",
    elapsedMs := 3, flushErr := none, probe := .row demoLogRow }

/-- A three-row cursor on which the scan of the second row fails. -/
def scanFailCursor : Cursor :=
  { columns := ["a", "b"]
    rows := [.ok [Value.int 1, Value.str "x"], .error "scan: unsupported type",
             .ok [Value.int 3, Value.str "z"]]
    err := none }

/-- A run whose cursor is `scanFailCursor`. -/
def scanFailRun : Run :=
  { openErr := none, queryID := "q-5", queryRes := .ok scanFailCursor, elapsedMs := 5,
    flushErr := none, probe := .row demoLogRow }

/-- A cursor whose rows all scan but which ends with a terminal error. -/
def brokenCursor : Cursor :=
  { columns := ["a", "b"]
    rows := [.ok [Value.int 1, Value.str "x"], .ok [Value.int 2, Value.null]]
    err := some "read: connection reset" }

/-- A run whose cursor is `brokenCursor`. -/
def brokenCursorRun : Run :=
  { openErr := none, queryID := "q-6", queryRes := .ok brokenCursor, elapsedMs := 5,
    flushErr := none, probe := .row demoLogRow }

/-! ## The remaining client operations (`client.go`) -/

/-- The record `entity.TableSchemaColumn` (`Typ` is the Go field `Type`). -/
structure TableSchemaColumn where
  Name : String
  Typ : String
  deriving DecidableEq, Repr

/-- The record `entity.TableSchema`. -/
structure TableSchema where
  Name : String
  Columns : List TableSchemaColumn
  deriving DecidableEq, Repr

/-- The record `entity.TableMeta`. -/
structure TableMeta where
  Name : String
  Engine : String
  deriving DecidableEq, Repr

/-- What the driver hands back during the session of a listing operation: the
error of `clickhouse.Open`, and the answer to `db.Query`, a cursor given by
the outcome of `Scan` on each of its rows. -/
structure RowsRun (ρ : Type) where
  openErr : Option Error
  queryRes : Except Error (List (Except Error ρ))

/-- The result of a client operation that receives the profile by pointer: the
Go result pair, the calls made on the driver, and the profile as the caller
finds it afterwards. -/
structure ClientStep (α : Type) where
  value : Option α
  err : Option Error
  trace : List Event
  conn : CHConnection

/-- The assignment `conn.Database = "default"` guarded by `conn.Database == ""`. -/
def defaultDatabase (conn : CHConnection) : CHConnection :=
  if conn.Database = "" then { conn with Database := "default" } else conn

/-- A row loop that scans every row into a record and appends it; the first
failing `Scan` ends it with its error. -/
def collectRows {ρ β : Type} (mk : ρ → β) : List (Except Error ρ) → List β → Except Error (List β)
  | [], acc => .ok acc
  | .error e :: _, _ => .error e
  | .ok r :: rest, acc => collectRows mk rest (acc ++ [mk r])

/-- The query text of `clientImpl.GetTables`. -/
def tablesQuery : String := "SELECT name, engine FROM system.tables WHERE database = ?"

/-- `clientImpl.GetTables`. -/
def clientImpl.GetTables (run : RowsRun (String × String)) (conn : CHConnection) :
    ClientStep (List TableMeta) :=
  match run.openErr with
  | some e => { value := none, err := some e, trace := [], conn := conn }
  | none =>
    let opened := [Event.sessionOpen (getConnection conn)]
    let conn := defaultDatabase conn
    match run.queryRes with
    | .error e =>
      { value := none, err := some e
        trace := opened ++ [Event.query none tablesQuery [conn.Database], Event.sessionClose]
        conn := conn }
    | .ok rows =>
      let issued := opened ++ [Event.query none tablesQuery [conn.Database]]
      match collectRows (fun r => ({ Name := r.1, Engine := r.2 } : TableMeta)) rows [] with
      | .error e =>
        { value := none, err := some e
          trace := issued ++ [Event.cursorClose, Event.sessionClose], conn := conn }
      | .ok tables =>
        { value := some tables, err := none
          trace := issued ++ [Event.cursorClose, Event.sessionClose], conn := conn }

/-- The query text of `clientImpl.GetCreateSQL` for a database and a table. -/
def createSQLQuery (database tableName : String) : String :=
  "SHOW CREATE TABLE `" ++ database ++ "`.`" ++ tableName ++ "`"

/-- `clientImpl.GetCreateSQL`; the Go result is `(string, error)`, the string
being empty on every error path. -/
def clientImpl.GetCreateSQL (run : RowsRun String) (conn : CHConnection) (tableName : String) :
    ClientStep String :=
  match run.openErr with
  | some e => { value := some "", err := some e, trace := [], conn := conn }
  | none =>
    let opened := [Event.sessionOpen (getConnection conn)]
    let conn := defaultDatabase conn
    let query := createSQLQuery conn.Database tableName
    match run.queryRes with
    | .error e =>
      { value := some "", err := some e
        trace := opened ++ [Event.query none query [], Event.sessionClose], conn := conn }
    | .ok rows =>
      let trace := opened ++ [Event.query none query [], Event.cursorClose, Event.sessionClose]
      match rows with
      | .ok statement :: _ => { value := some statement, err := none, trace := trace, conn := conn }
      | .error e :: _ => { value := some "", err := some e, trace := trace, conn := conn }
      | [] => { value := some "", err := some "table not found", trace := trace, conn := conn }

/-- What the driver hands back during the session of `GetServerInfo`. -/
structure InfoRun where
  openErr : Option Error
  /-- the outcome of `db.QueryRow(ctx, "SELECT version()").Scan(&version)` -/
  scan : Except Error String

/-- The query text `clientImpl.GetServerInfo` issues. -/
def serverInfoQuery : String := "SELECT version()"

/-- `clientImpl.GetServerInfo`; the Go result is `(string, error)`. -/
def clientImpl.GetServerInfo (run : InfoRun) (conn : CHConnection) : Outcome String :=
  match run.openErr with
  | some e => { value := some "", err := some e, trace := [] }
  | none =>
    let trace := [Event.sessionOpen (getConnection conn), Event.queryRow serverInfoQuery [],
      Event.sessionClose]
    match run.scan with
    | .error e => { value := some "", err := some e, trace := trace }
    | .ok version => { value := some version, err := none, trace := trace }

/-- The query text of `clientImpl.GetSchema`. -/
def schemaQuery : String :=
  "SELECT name, type FROM system.columns WHERE table = ? AND database = ?"

/-- `clientImpl.GetSchema`. -/
def clientImpl.GetSchema (run : RowsRun (String × String)) (conn : CHConnection)
    (tableName : String) : ClientStep TableSchema :=
  match run.openErr with
  | some e => { value := none, err := some e, trace := [], conn := conn }
  | none =>
    let opened := [Event.sessionOpen (getConnection conn)]
    let conn := defaultDatabase conn
    match run.queryRes with
    | .error e =>
      { value := none, err := some e
        trace := opened ++ [Event.query none schemaQuery [tableName, conn.Database],
          Event.sessionClose]
        conn := conn }
    | .ok rows =>
      let issued := opened ++ [Event.query none schemaQuery [tableName, conn.Database]]
      match collectRows (fun r => ({ Name := r.1, Typ := r.2 } : TableSchemaColumn)) rows [] with
      | .error e =>
        { value := none, err := some e
          trace := issued ++ [Event.cursorClose, Event.sessionClose], conn := conn }
      | .ok columns =>
        { value := some { Name := tableName, Columns := columns }, err := none
          trace := issued ++ [Event.cursorClose, Event.sessionClose], conn := conn }

/-- What `db.Ping` answers: success, a `*clickhouse.Exception`, or another
error. -/
inductive PingResponse where
  | ok
  | exception (code : Int) (message : String)
  | failed (e : Error)
  deriving DecidableEq, Repr

/-- What the driver hands back during the session of `Ping`. -/
structure PingRun where
  openErr : Option Error
  ping : PingResponse

/-- The Go result `error` of an operation together with its calls on the
driver. -/
structure ErrOutcome where
  err : Option Error
  trace : List Event

/-- `clientImpl.Ping`. -/
def clientImpl.Ping (run : PingRun) (conn : CHConnection) : ErrOutcome :=
  match run.openErr with
  | some e => { err := some e, trace := [] }
  | none =>
    let trace := [Event.sessionOpen (getConnection conn), Event.ping, Event.sessionClose]
    match run.ping with
    | .ok => { err := none, trace := trace }
    | .exception code message =>
      { err := some ("clickhouse exception: [" ++ toString code ++ "] " ++ message)
        trace := trace }
    | .failed e => { err := some e, trace := trace }

/-! ## `internal/repository/sqlite/connection.go` -/

/-- What gorm answers to `First(&conn, id)`: the record, `ErrRecordNotFound`,
or another error. -/
inductive FirstResult where
  | found (conn : CHConnection)
  | recordNotFound
  | failed (e : Error)
  deriving DecidableEq, Repr

/-- What the repository's collaborators answer during one lookup: the result
of `helper.CheckDeadline(ctx)` and the answer of gorm for each id. -/
structure RepoRun where
  deadlineErr : Option Error
  first : Int → FirstResult

/-- The message of `errwrap.Wrap(err, msg)`. -/
def errwrapWrap (e : Error) (msg : String) : Error := msg ++ ": " ++ e

/-- `Connection.FindByID`: the Go result pair `(*entity.CHConnection, error)`. -/
def Connection.FindByID (r : RepoRun) (id : Int) : Option CHConnection × Option Error :=
  let funcName := "ConnectionRepository.FindByID"
  match r.deadlineErr with
  | some e => (none, some (errwrapWrap e funcName))
  | none =>
    match r.first id with
    | .found conn => (some conn, none)
    | .recordNotFound => (none, none)
    | .failed e => (none, some (errwrapWrap e funcName))

/-! ## The remaining use cases (`ch_manager_usecase.go`) -/

/-- The result `(string, error)` of `GetConnectionStatus` with the calls made
on the driver. -/
structure StatusOutcome where
  status : String
  err : Option Error
  trace : List Event
  deriving DecidableEq, Repr

/-- `ConnectionUsecase.GetConnectionStatus`; `found` is what `repo.FindByID`
returned. -/
def ConnectionUsecase.GetConnectionStatus (found : Option CHConnection × Option Error)
    (run : PingRun) : StatusOutcome :=
  match found with
  | (_, some e) => { status := "Error", err := some e, trace := [] }
  | (none, none) => { status := "Not Found", err := none, trace := [] }
  | (some conn, none) =>
    let pinged := clientImpl.Ping run conn
    match pinged.err with
    | some _ => { status := "Offline", err := none, trace := pinged.trace }
    | none => { status := "Online", err := none, trace := pinged.trace }

/-- The override `if len(db) > 0 && db[0] != "" { conn.Database = db[0] }`. -/
def overrideDatabase (conn : CHConnection) (db : List String) : CHConnection :=
  match db with
  | d :: _ => if d ≠ "" then { conn with Database := d } else conn
  | [] => conn

/-- The text the use case returns in place of the table definition when it
cannot be fetched. -/
def createSQLPlaceholder : String := "-- Failed to fetch create SQL"

/-- The result `(*entity.TableSchema, string, error)` of the use case
`GetSchema` with the calls made on the driver. -/
structure SchemaOutcome where
  schema : Option TableSchema
  createSQL : String
  err : Option Error
  trace : List Event
  deriving DecidableEq, Repr

/-- `ConnectionUsecase.GetSchema`; `schemaRun` and `createRun` are the
engine's behaviour during the session of the client's `GetSchema` and of its
`GetCreateSQL`. -/
def ConnectionUsecase.GetSchema (found : Option CHConnection × Option Error)
    (schemaRun : RowsRun (String × String)) (createRun : RowsRun String) (table : String)
    (db : List String) : SchemaOutcome :=
  match found with
  | (_, some e) => { schema := none, createSQL := "", err := some e, trace := [] }
  | (none, none) => { schema := none, createSQL := "", err := none, trace := [] }
  | (some conn, none) =>
    let conn := overrideDatabase conn db
    let first := clientImpl.GetSchema schemaRun conn table
    match first.err with
    | some e => { schema := none, createSQL := "", err := some e, trace := first.trace }
    | none =>
      let second := clientImpl.GetCreateSQL createRun first.conn table
      let createSQL :=
        match second.err with
        | some _ => createSQLPlaceholder
        | none => second.value.getD ""
      { schema := first.value, createSQL := createSQL, err := none
        trace := first.trace ++ second.trace }

/-- `ConnectionUsecase.ExecuteQuery`; `found` is what `repo.FindByID`
returned. -/
def ConnectionUsecase.ExecuteQuery (found : Option CHConnection × Option Error) (run : Run)
    (query : String) : Outcome QueryResult :=
  match found with
  | (_, some e) => { value := none, err := some e, trace := [] }
  | (none, none) => { value := none, err := none, trace := [] }
  | (some conn, none) => ExecuteQueryWithResults run conn query

/-! ## Further observations and concrete runs -/

/-- A statement sent to the engine: `Query`, `Exec` or `QueryRow`. -/
def Event.isStatement : Event → Bool
  | .query _ _ _ => true
  | .exec _ => true
  | .queryRow _ _ => true
  | _ => false

/-- The text between `query != '` and the next apostrophe of a statement,
over the characters of the statement. -/
def excludedLiteralAux (pat : List Char) : List Char → Option (List Char)
  | [] => none
  | c :: cs =>
    if pat.isPrefixOf (c :: cs) then
      some (((c :: cs).drop pat.length).takeWhile (fun x => x ≠ Char.ofNat 39))
    else excludedLiteralAux pat cs

/-- The literal a statement compares `query` against in its `query != '...'`
condition, if it has one. -/
def excludedLiteral (sql : String) : Option String :=
  (excludedLiteralAux ("query != ".toList ++ [Char.ofNat 39]) sql.toList).map String.mk

/-- A two-column schema cursor without errors. -/
def schemaRows : List (Except Error (String × String)) :=
  [.ok ("id", "UInt64"), .ok ("name", "String")]

/-- A listing run in which everything succeeds. -/
def schemaRun : RowsRun (String × String) :=
  { openErr := none, queryRes := .ok schemaRows }

/-- A listing run in which the engine rejects the query. -/
def schemaFailRun : RowsRun (String × String) :=
  { openErr := none, queryRes := .error "code: 60, unknown table" }

/-- A `SHOW CREATE TABLE` run that returns a statement. -/
def createRun : RowsRun String :=
  { openErr := none, queryRes := .ok [.ok "CREATE TABLE default.t (id UInt64)"] }

/-- A `SHOW CREATE TABLE` run in which the engine rejects the statement. -/
def createFailRun : RowsRun String :=
  { openErr := none, queryRes := .error "code: 390, cannot show create" }

/-- A profile with a database set. -/
def analyticsConn : CHConnection := { demoConn with Database := "analytics" }

/-- A server-info run that succeeds. -/
def infoRun : InfoRun := { openErr := none, scan := .ok "24.3.1" }

/-- A ping that succeeds. -/
def pingOkRun : PingRun := { openErr := none, ping := .ok }

/-- A ping the engine answers with an exception. -/
def pingFailRun : PingRun := { openErr := none, ping := .exception 516 "authentication failed" }

/-- A repository in which no record exists. -/
def emptyRepo : RepoRun := { deadlineErr := none, first := fun _ => .recordNotFound }

/-- A cursor in which the column name `a` occurs twice. -/
def dupCursor : Cursor :=
  { columns := ["a", "b", "a"]
    rows := [.ok [Value.int 1, Value.str "x", Value.int 3]]
    err := none }

/-- A run whose cursor is `dupCursor`. -/
def dupRun : Run :=
  { openErr := none, queryID := "q-7", queryRes := .ok dupCursor, elapsedMs := 5,
    flushErr := none, probe := .noRows }

/-- A session being closed. -/
def Event.isSessionClose : Event → Bool
  | .sessionClose => true
  | _ => false

/-! ## Theorems -/

/-- A `uint64` below `2 ^ 63` keeps its value under `int64(x)`. -/
theorem int64OfUint64_of_lt (x : Nat) (h : x < 2 ^ 63) : int64OfUint64 x = (x : Int) := by
  have h64 : x % 2 ^ 64 = x := Nat.mod_eq_of_lt (by omega)
  unfold int64OfUint64
  rw [h64, if_pos h]

/-- C1: the claim asks that every field of the stats `ExecuteQueryWithStats`
returns equal the log row.  At `matchedRun` (the target query succeeds, the
probe returns duration 42, rows 10, bytes 20, memory 30, parts 4, marks 7) the
operation returns no error and the first five values, but `MarksRead` is `0`
and not the log's `7`: the probe's `marks` column is scanned and never stored.
`ExecuteQueryWithResults` on the same run stores `7`. -/
theorem ExecuteQueryWithStats_drops_marks :
    matchedRun.openErr = none ∧
    matchedRun.probe = ProbeResponse.row demoLogRow ∧
    demoLogRow.marks = 7 ∧
    (ExecuteQueryWithStats matchedRun demoConn "SELECT 1").err = none ∧
    (ExecuteQueryWithStats matchedRun demoConn "SELECT 1").value =
      some { ExecutionTimeMs := 42, RowsRead := 10, BytesRead := 20, MemoryPeak := 30,
             PartsRead := 4, MarksRead := 0 } ∧
    ((ExecuteQueryWithResults matchedRun demoConn "SELECT 1").value.bind QueryResult.Stats) =
      some { ExecutionTimeMs := 42, RowsRead := 10, BytesRead := 20, MemoryPeak := 30,
             PartsRead := 4, MarksRead := 7 } := by
  refine ⟨rfl, rfl, rfl, rfl, by decide, by decide⟩

/-- What `ExecuteQueryWithStats` does store from the log row: when the target
query succeeds and the probe returns a row, it returns no error and stats
whose `RowsRead`, `BytesRead`, `MemoryPeak` and `PartsRead` are the row's
values and whose `ExecutionTimeMs` is the row's duration converted to `int64`,
which is the duration itself whenever it is below `2 ^ 63`; `MarksRead` is `0`
whatever the row says. -/
theorem ExecuteQueryWithStats_matched (run : Run) (conn : CHConnection) (query : String)
    (cur : Cursor) (r : LogRow)
    (hopen : run.openErr = none) (hq : run.queryRes = .ok cur)
    (hp : run.probe = ProbeResponse.row r) :
    (ExecuteQueryWithStats run conn query).err = none ∧
    ∃ s, (ExecuteQueryWithStats run conn query).value = some s ∧
      s.ExecutionTimeMs = int64OfUint64 r.qDuration ∧
      (r.qDuration < 2 ^ 63 → s.ExecutionTimeMs = (r.qDuration : Int)) ∧
      s.RowsRead = r.readRows ∧ s.BytesRead = r.readBytes ∧
      s.MemoryPeak = r.memoryUsage ∧ s.PartsRead = r.parts ∧ s.MarksRead = 0 := by
  have hrun : ExecuteQueryWithStats run conn query =
      { value := some { ExecutionTimeMs := int64OfUint64 r.qDuration, RowsRead := r.readRows,
                        BytesRead := r.readBytes, MemoryPeak := r.memoryUsage,
                        PartsRead := r.parts, MarksRead := 0 }
        err := none
        trace := (ExecuteQueryWithStats run conn query).trace } := by
    simp only [ExecuteQueryWithStats, hopen, hq, hp, ProbeResponse.scan]
  rw [hrun]
  exact ⟨rfl, _, rfl, rfl, int64OfUint64_of_lt _, rfl, rfl, rfl, rfl, rfl⟩

/-- The stored fields at `matchedRun`: the hypotheses hold and the five fields
are those of `demoLogRow`, with `MarksRead` left at `0`. -/
theorem ExecuteQueryWithStats_matched_witness :
    (ExecuteQueryWithStats matchedRun demoConn "SELECT 1").err = none ∧
    ∃ s, (ExecuteQueryWithStats matchedRun demoConn "SELECT 1").value = some s ∧
      s.ExecutionTimeMs = int64OfUint64 demoLogRow.qDuration ∧
      (demoLogRow.qDuration < 2 ^ 63 → s.ExecutionTimeMs = (demoLogRow.qDuration : Int)) ∧
      s.RowsRead = demoLogRow.readRows ∧ s.BytesRead = demoLogRow.readBytes ∧
      s.MemoryPeak = demoLogRow.memoryUsage ∧ s.PartsRead = demoLogRow.parts ∧
      s.MarksRead = 0 :=
  ExecuteQueryWithStats_matched matchedRun demoConn "SELECT 1" demoCursor demoLogRow rfl rfl rfl

/-- C2 (as stated) fails: with the query decoded and the probe returning
`hugeLogRow`, the attached stats carry a negative `ExecutionTimeMs` instead
of the log's duration `2 ^ 63`. -/
theorem ExecuteQueryWithResults_duration_wraps :
    hugeRun.probe = ProbeResponse.row hugeLogRow ∧
    ((ExecuteQueryWithResults hugeRun demoConn "SELECT 1").value.bind QueryResult.Stats) =
      some { ExecutionTimeMs := -9223372036854775808, RowsRead := 10, BytesRead := 20,
             MemoryPeak := 30, PartsRead := 4, MarksRead := 7 } ∧
    (-9223372036854775808 : Int) ≠ (hugeLogRow.qDuration : Int) := by
  refine ⟨rfl, by decide, by decide⟩

/-- C2 (amended): when the query is decoded without error and the probe
returns a row, `ExecuteQueryWithResults` returns no error and a result whose
stats have `RowsRead`, `BytesRead`, `MemoryPeak`, `PartsRead` and `MarksRead`
equal to the row's values and `ExecutionTimeMs` equal to the row's duration
converted to `int64` (the duration itself whenever it is below `2 ^ 63`),
whatever the wall-clock reading. -/
theorem ExecuteQueryWithResults_matched (run : Run) (conn : CHConnection) (query : String)
    (cur : Cursor) (decoded : List RowMap) (r : LogRow)
    (hopen : run.openErr = none) (hq : run.queryRes = .ok cur)
    (hdec : scanLoop cur.columns cur.rows [] = .ok decoded) (herr : cur.err = none)
    (hp : run.probe = ProbeResponse.row r) :
    (ExecuteQueryWithResults run conn query).err = none ∧
    (ExecuteQueryWithResults run conn query).value =
      some { Columns := cur.columns, Rows := decoded,
             Stats := some { ExecutionTimeMs := int64OfUint64 r.qDuration,
                             RowsRead := r.readRows, BytesRead := r.readBytes,
                             MemoryPeak := r.memoryUsage, PartsRead := r.parts,
                             MarksRead := r.marks } } ∧
    (r.qDuration < 2 ^ 63 → int64OfUint64 r.qDuration = (r.qDuration : Int)) := by
  have hrun : ExecuteQueryWithResults run conn query =
      { value := some { Columns := cur.columns, Rows := decoded,
                        Stats := some { ExecutionTimeMs := int64OfUint64 r.qDuration,
                                        RowsRead := r.readRows, BytesRead := r.readBytes,
                                        MemoryPeak := r.memoryUsage, PartsRead := r.parts,
                                        MarksRead := r.marks } }
        err := none
        trace := (ExecuteQueryWithResults run conn query).trace } := by
    simp only [ExecuteQueryWithResults, hopen, hq, hdec, herr, hp, ProbeResponse.scan]
  rw [hrun]
  exact ⟨rfl, rfl, int64OfUint64_of_lt _⟩

/-- C2 (amended), at `matchedRun`: the hypotheses hold and the attached stats
are `demoLogRow`, field by field, not the wall-clock `12`. -/
theorem ExecuteQueryWithResults_matched_witness :
    ((ExecuteQueryWithResults matchedRun demoConn "SELECT 1").value.bind QueryResult.Stats) =
      some { ExecutionTimeMs := 42, RowsRead := 10, BytesRead := 20, MemoryPeak := 30,
             PartsRead := 4, MarksRead := 7 } := by
  have h := (ExecuteQueryWithResults_matched matchedRun demoConn "SELECT 1" demoCursor
    _ demoLogRow rfl rfl rfl rfl rfl).2.1
  rw [h]
  decide

/-- C3: when the target query succeeds and the probe returns no row or fails,
`ExecuteQueryWithStats` returns no error and the degraded stats (the
wall-clock duration, every other field zero); `ExecuteQueryWithResults` does
the same with the stats attached to the decoded result, once the cursor has
been decoded without error. -/
theorem probe_miss_degrades (run : Run) (conn : CHConnection) (query : String) (cur : Cursor)
    (hopen : run.openErr = none) (hq : run.queryRes = .ok cur)
    (hmiss : run.probe = ProbeResponse.noRows ∨ ∃ e, run.probe = ProbeResponse.failed e) :
    ((ExecuteQueryWithStats run conn query).err = none ∧
      (ExecuteQueryWithStats run conn query).value =
        some { ExecutionTimeMs := run.elapsedMs, RowsRead := 0, BytesRead := 0,
               MemoryPeak := 0, PartsRead := 0, MarksRead := 0 }) ∧
    (∀ decoded, scanLoop cur.columns cur.rows [] = .ok decoded → cur.err = none →
      (ExecuteQueryWithResults run conn query).err = none ∧
      (ExecuteQueryWithResults run conn query).value =
        some { Columns := cur.columns, Rows := decoded,
               Stats := some { ExecutionTimeMs := run.elapsedMs, RowsRead := 0, BytesRead := 0,
                               MemoryPeak := 0, PartsRead := 0, MarksRead := 0 } }) := by
  have hscan : ∃ e, run.probe.scan = .error e := by
    rcases hmiss with h | ⟨e, h⟩
    · exact ⟨_, by rw [h]; rfl⟩
    · exact ⟨e, by rw [h]; rfl⟩
  obtain ⟨e, he⟩ := hscan
  constructor
  · have hrun : ExecuteQueryWithStats run conn query =
        { value := some { ExecutionTimeMs := run.elapsedMs, RowsRead := 0, BytesRead := 0,
                          MemoryPeak := 0, PartsRead := 0, MarksRead := 0 }
          err := none
          trace := (ExecuteQueryWithStats run conn query).trace } := by
      simp only [ExecuteQueryWithStats, hopen, hq, he]
    rw [hrun]
    exact ⟨rfl, rfl⟩
  · intro decoded hdec herr
    have hrun : ExecuteQueryWithResults run conn query =
        { value := some { Columns := cur.columns, Rows := decoded,
                          Stats := some { ExecutionTimeMs := run.elapsedMs, RowsRead := 0,
                                          BytesRead := 0, MemoryPeak := 0, PartsRead := 0,
                                          MarksRead := 0 } }
          err := none
          trace := (ExecuteQueryWithResults run conn query).trace } := by
      simp only [ExecuteQueryWithResults, hopen, hq, hdec, herr, he]
    rw [hrun]
    exact ⟨rfl, rfl⟩

/-- C3, at `missedRun` (the probe finds no row, the clock says 12 ms): both
operations return no error and stats with only the 12 ms set. -/
theorem probe_miss_degrades_witness :
    ((ExecuteQueryWithStats missedRun demoConn "SELECT 1").err = none ∧
      (ExecuteQueryWithStats missedRun demoConn "SELECT 1").value =
        some { ExecutionTimeMs := 12, RowsRead := 0, BytesRead := 0,
               MemoryPeak := 0, PartsRead := 0, MarksRead := 0 }) ∧
    ((ExecuteQueryWithResults missedRun demoConn "SELECT 1").err = none ∧
      (ExecuteQueryWithResults missedRun demoConn "SELECT 1").value =
        some { Columns := ["a", "b"],
               Rows := [[("a", Value.int 1), ("b", Value.str "x")],
                        [("a", Value.int 2), ("b", Value.null)]],
               Stats := some { ExecutionTimeMs := 12, RowsRead := 0, BytesRead := 0,
                               MemoryPeak := 0, PartsRead := 0, MarksRead := 0 } }) :=
  ⟨(probe_miss_degrades missedRun demoConn "SELECT 1" demoCursor rfl rfl (Or.inl rfl)).1,
   (probe_miss_degrades missedRun demoConn "SELECT 1" demoCursor rfl rfl (Or.inl rfl)).2
     _ rfl rfl⟩

/-- C4: when the target query returns an error, both operations return that
error and no value, and the only calls made on the session are the target
query and the close: no `Exec` (flush) and no `QueryRow` (probe) is issued. -/
theorem query_error_propagates (run : Run) (conn : CHConnection) (query : String) (e : Error)
    (hopen : run.openErr = none) (hq : run.queryRes = .error e) :
    ((ExecuteQueryWithStats run conn query).value = none ∧
      (ExecuteQueryWithStats run conn query).err = some e ∧
      (ExecuteQueryWithStats run conn query).trace =
        [Event.sessionOpen (getConnection conn), Event.query (some run.queryID) query [],
         Event.sessionClose] ∧
      ∀ ev ∈ (ExecuteQueryWithStats run conn query).trace,
        ev.isExec = false ∧ ev.isQueryRow = false) ∧
    ((ExecuteQueryWithResults run conn query).value = none ∧
      (ExecuteQueryWithResults run conn query).err = some e ∧
      (ExecuteQueryWithResults run conn query).trace =
        [Event.sessionOpen (getConnection conn), Event.query (some run.queryID) query [],
         Event.sessionClose] ∧
      ∀ ev ∈ (ExecuteQueryWithResults run conn query).trace,
        ev.isExec = false ∧ ev.isQueryRow = false) := by
  have h1 : ExecuteQueryWithStats run conn query =
      { value := none, err := some e
        trace := [Event.sessionOpen (getConnection conn),
                  Event.query (some run.queryID) query [], Event.sessionClose] } := by
    simp only [ExecuteQueryWithStats, hopen, hq, List.singleton_append]
  have h2 : ExecuteQueryWithResults run conn query =
      { value := none, err := some e
        trace := [Event.sessionOpen (getConnection conn),
                  Event.query (some run.queryID) query [], Event.sessionClose] } := by
    simp only [ExecuteQueryWithResults, hopen, hq, List.singleton_append]
  rw [h1, h2]
  refine ⟨⟨rfl, rfl, rfl, ?_⟩, ⟨rfl, rfl, rfl, ?_⟩⟩ <;>
  · intro ev hev
    simp only [List.mem_cons, List.mem_singleton, List.not_mem_nil, or_false] at hev
    rcases hev with h | h | h <;> subst h <;> exact ⟨rfl, rfl⟩

/-- C4, at `failedQueryRun`: the engine's error comes back from both
operations and the session sees the target query only. -/
theorem query_error_propagates_witness :
    ((ExecuteQueryWithStats failedQueryRun demoConn "SELEC 1").value = none ∧
      (ExecuteQueryWithStats failedQueryRun demoConn "SELEC 1").err
        = some "code: 62, syntax error" ∧
      (ExecuteQueryWithStats failedQueryRun demoConn "SELEC 1").trace =
        [Event.sessionOpen (getConnection demoConn), Event.query (some "q-4") "SELEC 1" [],
         Event.sessionClose] ∧
      ∀ ev ∈ (ExecuteQueryWithStats failedQueryRun demoConn "SELEC 1").trace,
        ev.isExec = false ∧ ev.isQueryRow = false) ∧
    ((ExecuteQueryWithResults failedQueryRun demoConn "SELEC 1").value = none ∧
      (ExecuteQueryWithResults failedQueryRun demoConn "SELEC 1").err
        = some "code: 62, syntax error" ∧
      (ExecuteQueryWithResults failedQueryRun demoConn "SELEC 1").trace =
        [Event.sessionOpen (getConnection demoConn), Event.query (some "q-4") "SELEC 1" [],
         Event.sessionClose] ∧
      ∀ ev ∈ (ExecuteQueryWithResults failedQueryRun demoConn "SELEC 1").trace,
        ev.isExec = false ∧ ev.isQueryRow = false) :=
  query_error_propagates failedQueryRun demoConn "SELEC 1" "code: 62, syntax error" rfl rfl

/-! ### The row decoder -/

/-- Reading a key right after assigning it gives the assigned value. -/
theorem RowMap.index_assign_self (m : RowMap) (k : String) (v : Value) :
    RowMap.index (RowMap.assign m k v) k = some v := by
  induction m with
  | nil => simp [RowMap.assign, RowMap.index]
  | cons kv rest ih =>
    obtain ⟨k', v'⟩ := kv
    by_cases h : k' = k
    · simp [RowMap.assign, RowMap.index, h]
    · simp [RowMap.assign, RowMap.index, h, ih]

/-- Assigning a key leaves every other key as it was. -/
theorem RowMap.index_assign_of_ne (m : RowMap) (k k' : String) (v : Value) (h : k ≠ k') :
    RowMap.index (RowMap.assign m k v) k' = RowMap.index m k' := by
  induction m with
  | nil => simp [RowMap.assign, RowMap.index, h]
  | cons kv rest ih =>
    obtain ⟨k₀, v₀⟩ := kv
    by_cases h₀ : k₀ = k
    · have hne : ¬ k₀ = k' := fun hk => h (h₀.symm.trans hk)
      simp [RowMap.assign, RowMap.index, h₀, h, hne]
    · by_cases h₁ : k₀ = k'
      · simp [RowMap.assign, RowMap.index, h₀, h₁.symm]
      · simp [RowMap.assign, RowMap.index, h₀, h₁, ih]

/-- The column loop does not touch a key that is not a column name. -/
theorem foldl_assign_index_of_not_mem (cols : List String) (vals : List Value) (m : RowMap)
    (c : String) (h : c ∉ cols) :
    RowMap.index ((cols.zip vals).foldl (fun m cv => RowMap.assign m cv.1 cv.2) m) c
      = RowMap.index m c := by
  induction cols generalizing vals m with
  | nil => simp
  | cons c₀ cols ih =>
    cases vals with
    | nil => simp
    | cons v vals =>
      have hne : c₀ ≠ c := fun hc => h (hc ▸ List.mem_cons_self _ _)
      have hnot : c ∉ cols := fun hc => h (List.mem_cons_of_mem _ hc)
      simp only [List.zip_cons_cons, List.foldl_cons]
      rw [ih vals _ hnot, RowMap.index_assign_of_ne _ _ _ _ hne]

/-- With pairwise distinct column names, the column loop stores under the
`j`-th name the `j`-th value. -/
theorem foldl_assign_index_of_nodup (cols : List String) (vals : List Value) (m : RowMap)
    (hnd : cols.Nodup) (hlen : vals.length = cols.length) (j : Nat) (c : String)
    (hc : cols[j]? = some c) :
    ∃ v, vals[j]? = some v ∧
      RowMap.index ((cols.zip vals).foldl (fun m cv => RowMap.assign m cv.1 cv.2) m) c
        = some v := by
  induction cols generalizing vals m j with
  | nil => simp at hc
  | cons c₀ cols ih =>
    cases vals with
    | nil => simp at hlen
    | cons v vals =>
      have hnd' := List.nodup_cons.mp hnd
      simp only [List.zip_cons_cons, List.foldl_cons]
      cases j with
      | zero =>
        simp only [List.getElem?_cons_zero, Option.some.injEq] at hc
        subst hc
        refine ⟨v, by simp, ?_⟩
        rw [foldl_assign_index_of_not_mem cols vals _ _ hnd'.1, RowMap.index_assign_self]
      | succ j =>
        simp only [List.getElem?_cons_succ] at hc ⊢
        exact ih vals _ hnd'.2 (by simpa using hlen) j hc

/-- With pairwise distinct column names and one value per column, the decoded
row maps the `j`-th column name to the `j`-th value. -/
theorem buildRowMap_index (cols : List String) (vals : List Value)
    (hnd : cols.Nodup) (hlen : vals.length = cols.length) (j : Nat) (c : String)
    (hc : cols[j]? = some c) :
    ∃ v, vals[j]? = some v ∧ RowMap.index (buildRowMap cols vals) c = some v :=
  foldl_assign_index_of_nodup cols vals [] hnd hlen j c hc

/-- When every scan succeeds the row loop appends one decoded row per cursor
row, in cursor order. -/
theorem scanLoop_ok (cols : List String) (vals : List (List Value)) (acc : List RowMap) :
    scanLoop cols (vals.map Except.ok) acc = .ok (acc ++ vals.map (buildRowMap cols)) := by
  induction vals generalizing acc with
  | nil => simp [scanLoop]
  | cons row vals ih => simp [scanLoop, ih]

/-- The first failing scan ends the row loop with its error, whatever was
decoded before and whatever follows. -/
theorem scanLoop_error (cols : List String) (pre : List (List Value)) (e : Error)
    (post : List (Except Error (List Value))) (acc : List RowMap) :
    scanLoop cols (pre.map Except.ok ++ Except.error e :: post) acc = .error e := by
  induction pre generalizing acc with
  | nil => simp [scanLoop]
  | cons row pre ih => simp [scanLoop, ih]

/-- C5: for a cursor with columns `c` whose rows `vals` all scan and whose
terminal error is unset, `ExecuteQueryWithResults` returns no error and a
result with `Columns = c` and exactly one entry of `Rows` per cursor row, the
`i`-th entry being the map the column loop builds from the `i`-th row; when
the column names are pairwise distinct (and the row holds one value per
column) that map sends the `j`-th column name to the `j`-th scanned value. -/
theorem ExecuteQueryWithResults_decodes (run : Run) (conn : CHConnection) (query : String)
    (cur : Cursor) (vals : List (List Value))
    (hopen : run.openErr = none) (hq : run.queryRes = .ok cur)
    (hrows : cur.rows = vals.map Except.ok) (herr : cur.err = none) :
    (ExecuteQueryWithResults run conn query).err = none ∧
    ∃ res, (ExecuteQueryWithResults run conn query).value = some res ∧
      res.Columns = cur.columns ∧ res.Rows.length = vals.length ∧
      ∀ (i : Nat) (row : List Value), vals[i]? = some row →
        ∃ m, res.Rows[i]? = some m ∧ m = buildRowMap cur.columns row ∧
          (cur.columns.Nodup → row.length = cur.columns.length →
            ∀ (j : Nat) (c : String), cur.columns[j]? = some c →
              ∃ v, row[j]? = some v ∧ RowMap.index m c = some v) := by
  have hdec : scanLoop cur.columns cur.rows [] = .ok (vals.map (buildRowMap cur.columns)) := by
    rw [hrows, scanLoop_ok, List.nil_append]
  have hrun : ∃ st tr, ExecuteQueryWithResults run conn query =
      { value := some { Columns := cur.columns, Rows := vals.map (buildRowMap cur.columns),
                        Stats := st }
        err := none
        trace := tr } := by
    simp only [ExecuteQueryWithResults, hopen, hq, hdec, herr]
    exact ⟨_, _, rfl⟩
  obtain ⟨st, tr, hrun⟩ := hrun
  rw [hrun]
  refine ⟨rfl, _, rfl, rfl, by simp, ?_⟩
  intro i row hi
  refine ⟨buildRowMap cur.columns row, by simp [hi], rfl, ?_⟩
  intro hnd hlen j c hc
  exact buildRowMap_index cur.columns row hnd hlen j c hc

/-- C5, at `matchedRun` (columns `a`, `b`, distinct; two rows of mixed
types): the hypotheses hold and the decoded result is as described. -/
theorem ExecuteQueryWithResults_decodes_witness :
    demoCursor.columns.Nodup ∧
    (ExecuteQueryWithResults matchedRun demoConn "SELECT a, b FROM t").err = none ∧
    ∃ res, (ExecuteQueryWithResults matchedRun demoConn "SELECT a, b FROM t").value = some res ∧
      res.Columns = demoCursor.columns ∧
      res.Rows.length = [[Value.int 1, Value.str "x"], [Value.int 2, Value.null]].length ∧
      ∀ (i : Nat) (row : List Value), [[Value.int 1, Value.str "x"], [Value.int 2, Value.null]][i]? = some row →
        ∃ m, res.Rows[i]? = some m ∧ m = buildRowMap demoCursor.columns row ∧
          (demoCursor.columns.Nodup → row.length = demoCursor.columns.length →
            ∀ (j : Nat) (c : String), demoCursor.columns[j]? = some c →
              ∃ v, row[j]? = some v ∧ RowMap.index m c = some v) :=
  ⟨by decide,
   ExecuteQueryWithResults_decodes matchedRun demoConn "SELECT a, b FROM t" demoCursor
     [[Value.int 1, Value.str "x"], [Value.int 2, Value.null]] rfl rfl rfl rfl⟩

/-- C6: when the scan of a row fails after `pre` rows were decoded,
`ExecuteQueryWithResults` returns that scan error and no result (so none of
the decoded rows is exposed); the cursor is closed before the session, and no
`Exec` (flush) and no `QueryRow` (probe) is issued. -/
theorem ExecuteQueryWithResults_scan_error (run : Run) (conn : CHConnection) (query : String)
    (cur : Cursor) (pre : List (List Value)) (e : Error)
    (post : List (Except Error (List Value)))
    (hopen : run.openErr = none) (hq : run.queryRes = .ok cur)
    (hrows : cur.rows = pre.map Except.ok ++ Except.error e :: post) :
    (ExecuteQueryWithResults run conn query).value = none ∧
    (ExecuteQueryWithResults run conn query).err = some e ∧
    (ExecuteQueryWithResults run conn query).trace =
      [Event.sessionOpen (getConnection conn), Event.query (some run.queryID) query [],
       Event.cursorClose, Event.sessionClose] ∧
    ∀ ev ∈ (ExecuteQueryWithResults run conn query).trace,
      ev.isExec = false ∧ ev.isQueryRow = false := by
  have hdec : scanLoop cur.columns cur.rows [] = .error e := by
    rw [hrows, scanLoop_error]
  have hrun : ExecuteQueryWithResults run conn query =
      { value := none, err := some e
        trace := [Event.sessionOpen (getConnection conn),
                  Event.query (some run.queryID) query [], Event.cursorClose,
                  Event.sessionClose] } := by
    simp only [ExecuteQueryWithResults, hopen, hq, hdec, List.singleton_append]
  rw [hrun]
  refine ⟨rfl, rfl, rfl, ?_⟩
  intro ev hev
  simp only [List.mem_cons, List.mem_singleton, List.not_mem_nil, or_false] at hev
  rcases hev with h | h | h | h <;> subst h <;> exact ⟨rfl, rfl⟩

/-- C6, at `scanFailRun` (three rows, the scan of the second fails): the scan
error is returned with no result, and the session sees the target query, the
cursor close and the session close only. -/
theorem ExecuteQueryWithResults_scan_error_witness :
    (ExecuteQueryWithResults scanFailRun demoConn "SELECT a, b FROM t").value = none ∧
    (ExecuteQueryWithResults scanFailRun demoConn "SELECT a, b FROM t").err
      = some "scan: unsupported type" ∧
    (ExecuteQueryWithResults scanFailRun demoConn "SELECT a, b FROM t").trace =
      [Event.sessionOpen (getConnection demoConn),
       Event.query (some scanFailRun.queryID) "SELECT a, b FROM t" [],
       Event.cursorClose, Event.sessionClose] ∧
    ∀ ev ∈ (ExecuteQueryWithResults scanFailRun demoConn "SELECT a, b FROM t").trace,
      ev.isExec = false ∧ ev.isQueryRow = false :=
  ExecuteQueryWithResults_scan_error scanFailRun demoConn "SELECT a, b FROM t" scanFailCursor
    [[Value.int 1, Value.str "x"]] "scan: unsupported type"
    [.ok [Value.int 3, Value.str "z"]] rfl rfl rfl

/-- C7: when every row scans but the cursor's terminal error is set,
`ExecuteQueryWithResults` returns that error and no result, after closing the
cursor and without issuing the flush or the probe. -/
theorem ExecuteQueryWithResults_terminal_error (run : Run) (conn : CHConnection)
    (query : String) (cur : Cursor) (vals : List (List Value)) (e : Error)
    (hopen : run.openErr = none) (hq : run.queryRes = .ok cur)
    (hrows : cur.rows = vals.map Except.ok) (herr : cur.err = some e) :
    (ExecuteQueryWithResults run conn query).value = none ∧
    (ExecuteQueryWithResults run conn query).err = some e ∧
    (ExecuteQueryWithResults run conn query).trace =
      [Event.sessionOpen (getConnection conn), Event.query (some run.queryID) query [],
       Event.cursorClose, Event.sessionClose] := by
  have hdec : scanLoop cur.columns cur.rows [] = .ok (vals.map (buildRowMap cur.columns)) := by
    rw [hrows, scanLoop_ok, List.nil_append]
  have hrun : ExecuteQueryWithResults run conn query =
      { value := none, err := some e
        trace := [Event.sessionOpen (getConnection conn),
                  Event.query (some run.queryID) query [], Event.cursorClose,
                  Event.sessionClose] } := by
    simp only [ExecuteQueryWithResults, hopen, hq, hdec, herr, List.singleton_append]
  rw [hrun]
  exact ⟨rfl, rfl, rfl⟩

/-- C7, at `brokenCursorRun` (two rows scan, then the cursor reports a
terminal error): the terminal error is returned with no result. -/
theorem ExecuteQueryWithResults_terminal_error_witness :
    (ExecuteQueryWithResults brokenCursorRun demoConn "SELECT a, b FROM t").value = none ∧
    (ExecuteQueryWithResults brokenCursorRun demoConn "SELECT a, b FROM t").err
      = some "read: connection reset" ∧
    (ExecuteQueryWithResults brokenCursorRun demoConn "SELECT a, b FROM t").trace =
      [Event.sessionOpen (getConnection demoConn),
       Event.query (some brokenCursorRun.queryID) "SELECT a, b FROM t" [],
       Event.cursorClose, Event.sessionClose] :=
  ExecuteQueryWithResults_terminal_error brokenCursorRun demoConn "SELECT a, b FROM t"
    brokenCursor [[Value.int 1, Value.str "x"], [Value.int 2, Value.null]]
    "read: connection reset" rfl rfl rfl rfl

/-! ### The comparator and the flush -/

/-- Whenever `ExecuteQueryWithStats` returns no error it returns a stats
object. -/
theorem ExecuteQueryWithStats_value_isSome (run : Run) (conn : CHConnection) (query : String)
    (h : (ExecuteQueryWithStats run conn query).err = none) :
    (ExecuteQueryWithStats run conn query).value.isSome = true := by
  unfold ExecuteQueryWithStats at h ⊢
  rcases ho : run.openErr with _ | e₀
  · rcases hq : run.queryRes with e₁ | cur
    · simp [ho, hq] at h
    · rcases hp : run.probe.scan with e₂ | r <;> simp [hp]
  · simp [ho] at h

/-- When `ExecuteQueryWithStats` returns an error, it opened at most one
session and issued at most the target query on it. -/
theorem ExecuteQueryWithStats_trace_of_err (run : Run) (conn : CHConnection) (query : String)
    (e : Error) (h : (ExecuteQueryWithStats run conn query).err = some e) :
    (ExecuteQueryWithStats run conn query).trace = [] ∨
    (ExecuteQueryWithStats run conn query).trace =
      [Event.sessionOpen (getConnection conn), Event.query (some run.queryID) query [],
       Event.sessionClose] := by
  unfold ExecuteQueryWithStats at h ⊢
  rcases ho : run.openErr with _ | e₀
  · rcases hq : run.queryRes with e₁ | cur
    · right; simp
    · rcases hp : run.probe.scan with e₂ | r <;> simp [ho, hq, hp] at h
  · left; simp

/-- C8: for an existing connection, when `ExecuteQueryWithStats` fails on
query 1, `CompareQueries` returns that error and no `CompareResult`; the calls
made on the driver are those of the first execution alone, whatever query 2
and the engine's behaviour for it are: at most one session is opened and at
most one statement (the target query 1) is issued. -/
theorem CompareQueries_first_fails (conn : CHConnection) (run1 run2 : Run)
    (query1 query2 : String) (e : Error)
    (h1 : (ExecuteQueryWithStats run1 conn query1).err = some e) :
    (CompareQueries (some conn, none) run1 run2 query1 query2).value = none ∧
    (CompareQueries (some conn, none) run1 run2 query1 query2).err = some e ∧
    (CompareQueries (some conn, none) run1 run2 query1 query2).trace =
      (ExecuteQueryWithStats run1 conn query1).trace ∧
    ((CompareQueries (some conn, none) run1 run2 query1 query2).trace.filter
      Event.isSessionOpen).length ≤ 1 ∧
    ((CompareQueries (some conn, none) run1 run2 query1 query2).trace.filter
      Event.isQuery).length ≤ 1 ∧
    ∀ ev ∈ (CompareQueries (some conn, none) run1 run2 query1 query2).trace,
      ev.isExec = false ∧ ev.isQueryRow = false := by
  have hc : CompareQueries (some conn, none) run1 run2 query1 query2 =
      { value := none, err := some e
        trace := (ExecuteQueryWithStats run1 conn query1).trace } := by
    simp only [CompareQueries, h1]
  rw [hc]
  refine ⟨rfl, rfl, rfl, ?_⟩
  rcases ExecuteQueryWithStats_trace_of_err run1 conn query1 e h1 with ht | ht
  · simp [ht]
  · simp [ht, Event.isSessionOpen, Event.isQuery, Event.isExec, Event.isQueryRow]

/-- C8, with the engine rejecting query 1: the comparison returns the engine's
error, and the only session is the one of query 1. -/
theorem CompareQueries_first_fails_witness :
    (ExecuteQueryWithStats failedQueryRun demoConn "SELEC 1").err
      = some "code: 62, syntax error" ∧
    (CompareQueries (some demoConn, none) failedQueryRun matchedRun "SELEC 1" "SELECT 2").value
      = none ∧
    (CompareQueries (some demoConn, none) failedQueryRun matchedRun "SELEC 1" "SELECT 2").err
      = some "code: 62, syntax error" ∧
    (CompareQueries (some demoConn, none) failedQueryRun matchedRun "SELEC 1" "SELECT 2").trace
      = [Event.sessionOpen (getConnection demoConn), Event.query (some "q-4") "SELEC 1" [],
         Event.sessionClose] :=
  ⟨rfl,
   (CompareQueries_first_fails demoConn failedQueryRun matchedRun "SELEC 1" "SELECT 2"
     "code: 62, syntax error" rfl).1,
   (CompareQueries_first_fails demoConn failedQueryRun matchedRun "SELEC 1" "SELECT 2"
     "code: 62, syntax error" rfl).2.1,
   (CompareQueries_first_fails demoConn failedQueryRun matchedRun "SELEC 1" "SELECT 2"
     "code: 62, syntax error" rfl).2.2.1⟩

/-- C9: for an existing connection, when both executions return no error,
`CompareQueries` returns no error and a `CompareResult` whose `Query1Stats`
and `Query2Stats` are the stats objects the two executions returned,
unchanged; both are present, degraded or not. -/
theorem CompareQueries_pairs_stats (conn : CHConnection) (run1 run2 : Run)
    (query1 query2 : String)
    (h1 : (ExecuteQueryWithStats run1 conn query1).err = none)
    (h2 : (ExecuteQueryWithStats run2 conn query2).err = none) :
    (CompareQueries (some conn, none) run1 run2 query1 query2).err = none ∧
    (CompareQueries (some conn, none) run1 run2 query1 query2).value =
      some { Query1Stats := (ExecuteQueryWithStats run1 conn query1).value
             Query2Stats := (ExecuteQueryWithStats run2 conn query2).value } ∧
    (ExecuteQueryWithStats run1 conn query1).value.isSome = true ∧
    (ExecuteQueryWithStats run2 conn query2).value.isSome = true := by
  have hc : CompareQueries (some conn, none) run1 run2 query1 query2 =
      { value := some { Query1Stats := (ExecuteQueryWithStats run1 conn query1).value
                        Query2Stats := (ExecuteQueryWithStats run2 conn query2).value }
        err := none
        trace := (ExecuteQueryWithStats run1 conn query1).trace ++
                 (ExecuteQueryWithStats run2 conn query2).trace } := by
    simp only [CompareQueries, h1, h2]
  rw [hc]
  exact ⟨rfl, rfl, ExecuteQueryWithStats_value_isSome _ _ _ h1,
    ExecuteQueryWithStats_value_isSome _ _ _ h2⟩

/-- C9, with the probe missing for query 1 and matching for query 2: the
result pairs the degraded stats of query 1 with the log stats of query 2. -/
theorem CompareQueries_pairs_stats_witness :
    (CompareQueries (some demoConn, none) missedRun matchedRun "SELECT 1" "SELECT 2").err
      = none ∧
    (CompareQueries (some demoConn, none) missedRun matchedRun "SELECT 1" "SELECT 2").value =
      some { Query1Stats := some (degradedStats 12)
             Query2Stats := (ExecuteQueryWithStats matchedRun demoConn "SELECT 2").value } :=
  ⟨(CompareQueries_pairs_stats demoConn missedRun matchedRun "SELECT 1" "SELECT 2" rfl rfl).1,
   (CompareQueries_pairs_stats demoConn missedRun matchedRun "SELECT 1" "SELECT 2" rfl rfl).2.1⟩

/-- C10: the result of `SYSTEM FLUSH LOGS` has no influence.  Two runs that
differ only in the flush result give the same value, the same error and the
same calls, in `ExecuteQueryWithStats` and in `ExecuteQueryWithResults`; and
in either operation the probe is issued exactly when the flush is, so it is
issued in both runs. -/
theorem flush_result_irrelevant (run : Run) (conn : CHConnection) (query : String)
    (f1 f2 : Option Error) :
    ExecuteQueryWithStats { run with flushErr := f1 } conn query =
      ExecuteQueryWithStats { run with flushErr := f2 } conn query ∧
    ExecuteQueryWithResults { run with flushErr := f1 } conn query =
      ExecuteQueryWithResults { run with flushErr := f2 } conn query ∧
    (Event.exec flushSQL ∈ (ExecuteQueryWithStats { run with flushErr := f1 } conn query).trace ↔
      Event.queryRow statsQuery [run.queryID] ∈
        (ExecuteQueryWithStats { run with flushErr := f1 } conn query).trace) ∧
    (Event.exec flushSQL ∈
        (ExecuteQueryWithResults { run with flushErr := f1 } conn query).trace ↔
      Event.queryRow statsQuery [run.queryID] ∈
        (ExecuteQueryWithResults { run with flushErr := f1 } conn query).trace) := by
  refine ⟨rfl, rfl, ?_, ?_⟩
  · unfold ExecuteQueryWithStats
    rcases ho : run.openErr with _ | e₀
    · rcases hq : run.queryRes with e₁ | cur
      · simp [ho, hq]
      · rcases hp : run.probe.scan with e₂ | r <;> simp [ho, hq, hp]
    · simp [ho]
  · unfold ExecuteQueryWithResults
    rcases ho : run.openErr with _ | e₀
    · rcases hq : run.queryRes with e₁ | cur
      · simp [ho, hq]
      · rcases hd : scanLoop cur.columns cur.rows [] with e₂ | decoded
        · simp [ho, hq, hd]
        · rcases he : cur.err with _ | e₃ <;> simp [ho, hq, hd, he]
    · simp [ho]

/-- C10, at `matchedRun` with the flush failing and with it succeeding: the
flush and the probe are issued in both runs and the outcomes are equal. -/
theorem flush_result_irrelevant_witness :
    Event.exec flushSQL ∈
      (ExecuteQueryWithStats { matchedRun with flushErr := some "timeout" } demoConn
        "SELECT 1").trace ∧
    Event.queryRow statsQuery ["q-1"] ∈
      (ExecuteQueryWithStats { matchedRun with flushErr := some "timeout" } demoConn
        "SELECT 1").trace ∧
    Event.queryRow statsQuery ["q-1"] ∈
      (ExecuteQueryWithStats { matchedRun with flushErr := none } demoConn "SELECT 1").trace ∧
    Event.queryRow statsQuery ["q-1"] ∈
      (ExecuteQueryWithResults { matchedRun with flushErr := some "timeout" } demoConn
        "SELECT 1").trace ∧
    ExecuteQueryWithStats { matchedRun with flushErr := some "timeout" } demoConn "SELECT 1" =
      ExecuteQueryWithStats { matchedRun with flushErr := none } demoConn "SELECT 1" ∧
    ExecuteQueryWithResults { matchedRun with flushErr := some "timeout" } demoConn "SELECT 1" =
      ExecuteQueryWithResults { matchedRun with flushErr := none } demoConn "SELECT 1" := by
  have h := flush_result_irrelevant matchedRun demoConn "SELECT 1" (some "timeout") none
  have hflush : Event.exec flushSQL ∈
      (ExecuteQueryWithStats { matchedRun with flushErr := some "timeout" } demoConn
        "SELECT 1").trace := by
    simp [ExecuteQueryWithStats, matchedRun, ProbeResponse.scan]
  have hflush' : Event.exec flushSQL ∈
      (ExecuteQueryWithResults { matchedRun with flushErr := some "timeout" } demoConn
        "SELECT 1").trace := by
    simp [ExecuteQueryWithResults, matchedRun, demoCursor, scanLoop]
  exact ⟨hflush, h.2.2.1.mp hflush, h.1 ▸ h.2.2.1.mp hflush, h.2.2.2.mp hflush', h.1, h.2.1⟩

/-! ### Statement order, the probe text and the default database -/

/-- C11: whenever the target query succeeds, the statements
`ExecuteQueryWithStats` sends on its session are, in order, the target query
tagged with the generated identifier, `SYSTEM FLUSH LOGS`, and one log probe
whose only parameter is that identifier; there is exactly one probe, whatever
it returns. -/
theorem ExecuteQueryWithStats_statements (run : Run) (conn : CHConnection) (query : String)
    (cur : Cursor) (hopen : run.openErr = none) (hq : run.queryRes = .ok cur) :
    (ExecuteQueryWithStats run conn query).trace.filter Event.isStatement =
      [Event.query (some run.queryID) query [], Event.exec flushSQL,
       Event.queryRow statsQuery [run.queryID]] ∧
    ((ExecuteQueryWithStats run conn query).trace.filter Event.isQueryRow).length = 1 ∧
    (ExecuteQueryWithStats run conn query).trace =
      [Event.sessionOpen (getConnection conn), Event.query (some run.queryID) query [],
       Event.cursorClose, Event.exec flushSQL, Event.queryRow statsQuery [run.queryID],
       Event.sessionClose] := by
  have ht : (ExecuteQueryWithStats run conn query).trace =
      [Event.sessionOpen (getConnection conn), Event.query (some run.queryID) query [],
       Event.cursorClose, Event.exec flushSQL, Event.queryRow statsQuery [run.queryID],
       Event.sessionClose] := by
    unfold ExecuteQueryWithStats
    rcases hp : run.probe.scan with e | r <;> simp [hopen, hq, hp]
  rw [ht]
  exact ⟨rfl, rfl, rfl⟩

/-- C11, at `matchedRun` and at `missedRun`: the same three statements, with
the identifier of the run, whether the probe finds a row or not. -/
theorem ExecuteQueryWithStats_statements_witness :
    (ExecuteQueryWithStats matchedRun demoConn "SELECT 1").trace.filter Event.isStatement =
      [Event.query (some "q-1") "SELECT 1" [], Event.exec "SYSTEM FLUSH LOGS",
       Event.queryRow statsQuery ["q-1"]] ∧
    (ExecuteQueryWithStats missedRun demoConn "SELECT 1").trace.filter Event.isStatement =
      [Event.query (some "q-3") "SELECT 1" [], Event.exec "SYSTEM FLUSH LOGS",
       Event.queryRow statsQuery ["q-3"]] :=
  ⟨(ExecuteQueryWithStats_statements matchedRun demoConn "SELECT 1" demoCursor rfl rfl).1,
   (ExecuteQueryWithStats_statements missedRun demoConn "SELECT 1" demoCursor rfl rfl).1⟩

set_option maxRecDepth 100000 in
/-- The literal the log probe excludes is `probeExcludedQuery`. -/
theorem excludedLiteral_statsQuery : excludedLiteral statsQuery = some probeExcludedQuery := by
  decide

/-- A probe issued by `ExecuteQueryWithStats` is `statsQuery` with the run's
identifier. -/
theorem ExecuteQueryWithStats_probe_text (run : Run) (conn : CHConnection) (query : String)
    (ev : Event) (hev : ev ∈ (ExecuteQueryWithStats run conn query).trace)
    (hrow : ev.isQueryRow = true) : ev = Event.queryRow statsQuery [run.queryID] := by
  unfold ExecuteQueryWithStats at hev
  rcases ho : run.openErr with _ | e₀
  · rcases hq : run.queryRes with e₁ | cur
    · simp [ho, hq] at hev
      rcases hev with h | h | h <;> subst h <;> simp [Event.isQueryRow] at hrow
    · rcases hp : run.probe.scan with e₂ | r <;> simp [ho, hq, hp] at hev <;>
        rcases hev with h | h | h | h | h | h <;> subst h <;>
        first | rfl | simp [Event.isQueryRow] at hrow
  · simp [ho] at hev

/-- A probe issued by `ExecuteQueryWithResults` is `statsQuery` with the run's
identifier. -/
theorem ExecuteQueryWithResults_probe_text (run : Run) (conn : CHConnection) (query : String)
    (ev : Event) (hev : ev ∈ (ExecuteQueryWithResults run conn query).trace)
    (hrow : ev.isQueryRow = true) : ev = Event.queryRow statsQuery [run.queryID] := by
  unfold ExecuteQueryWithResults at hev
  rcases ho : run.openErr with _ | e₀
  · rcases hq : run.queryRes with e₁ | cur
    · simp [ho, hq] at hev
      rcases hev with h | h | h <;> subst h <;> simp [Event.isQueryRow] at hrow
    · rcases hd : scanLoop cur.columns cur.rows [] with e₂ | decoded
      · simp [ho, hq, hd] at hev
        rcases hev with h | h | h | h <;> subst h <;> simp [Event.isQueryRow] at hrow
      · rcases he : cur.err with _ | e₃
        · simp [ho, hq, hd, he] at hev
          rcases hev with h | h | h | h | h | h <;> subst h <;>
            first | rfl | simp [Event.isQueryRow] at hrow
        · simp [ho, hq, hd, he] at hev
          rcases hev with h | h | h | h <;> subst h <;> simp [Event.isQueryRow] at hrow
  · simp [ho] at hev

set_option maxRecDepth 100000 in
/-- C12 (as stated) fails: the literal the probe excludes is
`SELECT displayName(), version(), revision(), timezone()`, while the only
statement `GetServerInfo` issues is `SELECT version()`. -/
theorem probe_excluded_text_differs :
    excludedLiteral statsQuery
      = some "SELECT displayName(), version(), revision(), timezone()" ∧
    (clientImpl.GetServerInfo infoRun demoConn).trace.filter Event.isStatement
      = [Event.queryRow "SELECT version()" []] ∧
    excludedLiteral statsQuery ≠ some "SELECT version()" := by
  refine ⟨by decide, by decide, by decide⟩

/-- C12 (amended): the literal the log probe excludes, in the one probe text
both `ExecuteQueryWithStats` and `ExecuteQueryWithResults` issue, is
`SELECT displayName(), version(), revision(), timezone()`; the statement
`GetServerInfo` issues is `SELECT version()`, a different text. -/
theorem probe_excluded_text (info : InfoRun) (run : Run) (conn : CHConnection)
    (query : String) (hopen : info.openErr = none) :
    excludedLiteral statsQuery
      = some "SELECT displayName(), version(), revision(), timezone()" ∧
    (∀ ev ∈ (ExecuteQueryWithStats run conn query).trace, ev.isQueryRow = true →
      ev = Event.queryRow statsQuery [run.queryID]) ∧
    (∀ ev ∈ (ExecuteQueryWithResults run conn query).trace, ev.isQueryRow = true →
      ev = Event.queryRow statsQuery [run.queryID]) ∧
    (clientImpl.GetServerInfo info conn).trace.filter Event.isStatement
      = [Event.queryRow "SELECT version()" []] ∧
    excludedLiteral statsQuery ≠ some "SELECT version()" := by
  have hlit := excludedLiteral_statsQuery
  have hinfo : (clientImpl.GetServerInfo info conn).trace =
      [Event.sessionOpen (getConnection conn), Event.queryRow serverInfoQuery [],
       Event.sessionClose] := by
    unfold clientImpl.GetServerInfo
    rcases hs : info.scan with e | v <;> simp [hopen, hs]
  refine ⟨hlit, ExecuteQueryWithStats_probe_text run conn query,
    ExecuteQueryWithResults_probe_text run conn query, ?_, ?_⟩
  · rw [hinfo]; rfl
  · rw [hlit]; decide

/-- C12 (amended), at `infoRun` and `matchedRun`: the probe of the run excludes
the four-function text and `GetServerInfo` sends `SELECT version()`. -/
theorem probe_excluded_text_witness :
    infoRun.openErr = none ∧
    Event.queryRow statsQuery ["q-1"] ∈
      (ExecuteQueryWithStats matchedRun demoConn "SELECT 1").trace ∧
    excludedLiteral statsQuery
      = some "SELECT displayName(), version(), revision(), timezone()" ∧
    (clientImpl.GetServerInfo infoRun demoConn).trace.filter Event.isStatement
      = [Event.queryRow "SELECT version()" []] :=
  ⟨rfl, by simp [ExecuteQueryWithStats, matchedRun, ProbeResponse.scan],
   (probe_excluded_text infoRun matchedRun demoConn "SELECT 1" rfl).1,
   (probe_excluded_text infoRun matchedRun demoConn "SELECT 1" rfl).2.2.2.1⟩

/-- The trace of `clientImpl.GetSchema` once the session is open: the
`system.columns` query with the table and the defaulted database, then the
releases. -/
theorem GetSchema_trace (run : RowsRun (String × String)) (conn : CHConnection) (t : String)
    (hopen : run.openErr = none) :
    (clientImpl.GetSchema run conn t).trace.filter Event.isStatement =
      [Event.query none schemaQuery [t, (defaultDatabase conn).Database]] := by
  unfold clientImpl.GetSchema
  rcases hq : run.queryRes with e | rows
  · simp [hopen, hq, Event.isStatement]
  · rcases hc : collectRows (fun r => ({ Name := r.1, Typ := r.2 } : TableSchemaColumn))
      rows [] with e | cols <;> simp [hopen, hq, hc, Event.isStatement]

/-- C13: once the session is open, the only statement `GetSchema` issues is the
`system.columns` query; for a profile with an empty `Database` its parameters
are `(t, "default")`, for a profile with a non-empty `Database` `d` they are
`(t, d)`. -/
theorem GetSchema_database_parameter (run : RowsRun (String × String)) (conn : CHConnection)
    (t : String) (hopen : run.openErr = none) :
    schemaQuery = "SELECT name, type FROM system.columns WHERE table = ? AND database = ?" ∧
    (conn.Database = "" →
      (clientImpl.GetSchema run conn t).trace.filter Event.isStatement =
        [Event.query none schemaQuery [t, "default"]]) ∧
    (conn.Database ≠ "" →
      (clientImpl.GetSchema run conn t).trace.filter Event.isStatement =
        [Event.query none schemaQuery [t, conn.Database]]) := by
  refine ⟨rfl, ?_, ?_⟩
  · intro hdb
    rw [GetSchema_trace run conn t hopen]
    simp [defaultDatabase, hdb]
  · intro hdb
    rw [GetSchema_trace run conn t hopen]
    simp [defaultDatabase, hdb]

/-- C13, for table `t`: with the empty-database profile `demoConn` the
parameters are `(t, "default")`, with `analyticsConn` they are
`(t, "analytics")`. -/
theorem GetSchema_database_parameter_witness :
    demoConn.Database = "" ∧
    (clientImpl.GetSchema schemaRun demoConn "t").trace.filter Event.isStatement =
      [Event.query none schemaQuery ["t", "default"]] ∧
    analyticsConn.Database ≠ "" ∧
    (clientImpl.GetSchema schemaRun analyticsConn "t").trace.filter Event.isStatement =
      [Event.query none schemaQuery ["t", "analytics"]] :=
  ⟨rfl, (GetSchema_database_parameter schemaRun demoConn "t" rfl).2.1 rfl,
   by decide, (GetSchema_database_parameter schemaRun analyticsConn "t" rfl).2.2 (by decide)⟩

/-- C14 (as stated) fails: called with the empty-database profile `demoConn`,
`GetSchema`, `GetTables` and `GetCreateSQL` each leave `Database = "default"`
in the profile the caller passed in. -/
theorem profile_database_overwritten :
    demoConn.Database = "" ∧
    (clientImpl.GetSchema schemaRun demoConn "t").conn.Database = "default" ∧
    (clientImpl.GetTables schemaRun demoConn).conn.Database = "default" ∧
    (clientImpl.GetCreateSQL createRun demoConn "t").conn.Database = "default" ∧
    (clientImpl.GetSchema schemaRun demoConn "t").conn ≠ demoConn := by
  refine ⟨rfl, rfl, rfl, rfl, by decide⟩

/-- C14 (amended): `GetTables`, `GetCreateSQL` and `GetSchema` leave every
field of the caller's profile other than `Database` as it was; `Database` is
left as it was when it is non-empty or the session cannot be opened, and is
overwritten with `"default"` in the caller's profile when it is empty and the
session is opened. -/
theorem profile_after_call (runT runS : RowsRun (String × String)) (runC : RowsRun String)
    (conn : CHConnection) (t : String) :
    ((clientImpl.GetTables runT conn).conn =
        (if runT.openErr = none then defaultDatabase conn else conn) ∧
      (clientImpl.GetCreateSQL runC conn t).conn =
        (if runC.openErr = none then defaultDatabase conn else conn) ∧
      (clientImpl.GetSchema runS conn t).conn =
        (if runS.openErr = none then defaultDatabase conn else conn)) ∧
    { defaultDatabase conn with Database := conn.Database } = conn ∧
    (defaultDatabase conn).Database = (if conn.Database = "" then "default" else conn.Database) := by
  refine ⟨⟨?_, ?_, ?_⟩, ?_, ?_⟩
  · unfold clientImpl.GetTables
    rcases ho : runT.openErr with _ | e₀
    · rcases hq : runT.queryRes with e | rows
      · simp
      · rcases hc : collectRows (fun r => ({ Name := r.1, Engine := r.2 } : TableMeta))
          rows [] with e | tables <;> simp [hc]
    · simp
  · unfold clientImpl.GetCreateSQL
    rcases ho : runC.openErr with _ | e₀
    · rcases hq : runC.queryRes with e | rows
      · simp
      · rcases rows with _ | ⟨r, rest⟩
        · simp
        · rcases r with e | s <;> simp
    · simp
  · unfold clientImpl.GetSchema
    rcases ho : runS.openErr with _ | e₀
    · rcases hq : runS.queryRes with e | rows
      · simp
      · rcases hc : collectRows (fun r => ({ Name := r.1, Typ := r.2 } : TableSchemaColumn))
          rows [] with e | cols <;> simp [hc]
    · simp
  · unfold defaultDatabase
    split
    · next h => cases conn; simp_all
    · rfl
  · unfold defaultDatabase
    split <;> simp_all

/-! ### Auxiliary lookups, status and session release -/

/-- When `clientImpl.GetSchema` returns no error it returns a schema. -/
theorem GetSchema_value_isSome (run : RowsRun (String × String)) (conn : CHConnection)
    (t : String) (h : (clientImpl.GetSchema run conn t).err = none) :
    (clientImpl.GetSchema run conn t).value.isSome = true := by
  unfold clientImpl.GetSchema at h ⊢
  rcases ho : run.openErr with _ | e₀
  · rcases hq : run.queryRes with e | rows
    · simp [ho, hq] at h
    · rcases hc : collectRows (fun r => ({ Name := r.1, Typ := r.2 } : TableSchemaColumn))
        rows [] with e | cols
      · simp [ho, hq, hc] at h
      · simp [hc]
  · simp [ho] at h

/-- The traces `clientImpl.GetSchema` can leave. -/
theorem GetSchema_trace_cases (run : RowsRun (String × String)) (conn : CHConnection)
    (t : String) :
    (clientImpl.GetSchema run conn t).trace = [] ∨
    (clientImpl.GetSchema run conn t).trace =
      [Event.sessionOpen (getConnection conn),
       Event.query none schemaQuery [t, (defaultDatabase conn).Database],
       Event.sessionClose] ∨
    (clientImpl.GetSchema run conn t).trace =
      [Event.sessionOpen (getConnection conn),
       Event.query none schemaQuery [t, (defaultDatabase conn).Database],
       Event.cursorClose, Event.sessionClose] := by
  unfold clientImpl.GetSchema
  rcases ho : run.openErr with _ | e₀
  · rcases hq : run.queryRes with e | rows
    · right; left; simp
    · right; right
      rcases hc : collectRows (fun r => ({ Name := r.1, Typ := r.2 } : TableSchemaColumn))
        rows [] with e | cols <;> simp [hc]
  · left; simp

/-- `clientImpl.GetSchema` opens at most one session and never issues a
`SHOW CREATE TABLE` statement. -/
theorem GetSchema_trace_bound (run : RowsRun (String × String)) (conn : CHConnection)
    (t : String) :
    ((clientImpl.GetSchema run conn t).trace.filter Event.isSessionOpen).length ≤ 1 ∧
    ∀ ev ∈ (clientImpl.GetSchema run conn t).trace, ∀ (d : String),
      ev ≠ Event.query none (createSQLQuery d t) [] := by
  have hne : ∀ (d : String) (args : List String),
      Event.query none schemaQuery args ≠ Event.query none (createSQLQuery d t) [] := by
    intro d args h
    injection h with _ hsql _
    have hpre : ("SHOW CREATE TABLE ".toList).isPrefixOf schemaQuery.toList = true := by
      rw [hsql]
      simp [createSQLQuery, String.toList, List.isPrefixOf]
    revert hpre
    decide
  rcases GetSchema_trace_cases run conn t with ht | ht | ht <;> rw [ht]
  · simp
  · refine ⟨by simp [Event.isSessionOpen], ?_⟩
    intro ev hev d
    simp only [List.mem_cons, List.mem_singleton, List.not_mem_nil, or_false] at hev
    rcases hev with h | h | h <;> subst h
    · simp
    · exact hne d _
    · simp
  · refine ⟨by simp [Event.isSessionOpen], ?_⟩
    intro ev hev d
    simp only [List.mem_cons, List.mem_singleton, List.not_mem_nil, or_false] at hev
    rcases hev with h | h | h | h <;> subst h
    · simp
    · exact hne d _
    · simp
    · simp

/-- C15: in the use case `GetSchema`, for an existing connection: when the
column-schema lookup succeeds and `GetCreateSQL` fails, the result is the
schema the lookup returned, the text `-- Failed to fetch create SQL`, and no
error; when the column-schema lookup fails, its error is returned with no
schema, and the calls made are those of the lookup alone (one session at
most, no `SHOW CREATE TABLE`). -/
theorem usecase_GetSchema_lookups (conn : CHConnection)
    (schemaRun : RowsRun (String × String)) (createRun : RowsRun String) (table : String)
    (db : List String) :
    (∀ e, (clientImpl.GetSchema schemaRun (overrideDatabase conn db) table).err = none →
      (clientImpl.GetCreateSQL createRun
        (clientImpl.GetSchema schemaRun (overrideDatabase conn db) table).conn table).err
          = some e →
      (ConnectionUsecase.GetSchema (some conn, none) schemaRun createRun table db).schema =
        (clientImpl.GetSchema schemaRun (overrideDatabase conn db) table).value ∧
      (ConnectionUsecase.GetSchema (some conn, none) schemaRun createRun table db).schema.isSome
        = true ∧
      (ConnectionUsecase.GetSchema (some conn, none) schemaRun createRun table db).createSQL =
        "-- Failed to fetch create SQL" ∧
      (ConnectionUsecase.GetSchema (some conn, none) schemaRun createRun table db).err = none) ∧
    (∀ e, (clientImpl.GetSchema schemaRun (overrideDatabase conn db) table).err = some e →
      (ConnectionUsecase.GetSchema (some conn, none) schemaRun createRun table db).err
        = some e ∧
      (ConnectionUsecase.GetSchema (some conn, none) schemaRun createRun table db).schema
        = none ∧
      (ConnectionUsecase.GetSchema (some conn, none) schemaRun createRun table db).trace =
        (clientImpl.GetSchema schemaRun (overrideDatabase conn db) table).trace ∧
      ((ConnectionUsecase.GetSchema (some conn, none) schemaRun createRun table db).trace.filter
        Event.isSessionOpen).length ≤ 1 ∧
      ∀ ev ∈ (ConnectionUsecase.GetSchema (some conn, none) schemaRun createRun table db).trace,
        ∀ (d : String), ev ≠ Event.query none (createSQLQuery d table) []) := by
  constructor
  · intro e h1 h2
    have hv := GetSchema_value_isSome schemaRun (overrideDatabase conn db) table h1
    have hrun : ConnectionUsecase.GetSchema (some conn, none) schemaRun createRun table db =
        { schema := (clientImpl.GetSchema schemaRun (overrideDatabase conn db) table).value
          createSQL := createSQLPlaceholder
          err := none
          trace := (ConnectionUsecase.GetSchema (some conn, none) schemaRun createRun table
            db).trace } := by
      simp only [ConnectionUsecase.GetSchema, h1, h2]
    rw [hrun]
    exact ⟨rfl, hv, rfl, rfl⟩
  · intro e h1
    have hb := GetSchema_trace_bound schemaRun (overrideDatabase conn db) table
    have hrun : ConnectionUsecase.GetSchema (some conn, none) schemaRun createRun table db =
        { schema := none, createSQL := "", err := some e
          trace := (clientImpl.GetSchema schemaRun (overrideDatabase conn db) table).trace } := by
      simp only [ConnectionUsecase.GetSchema, h1]
    rw [hrun]
    exact ⟨rfl, rfl, rfl, hb.1, hb.2⟩

/-- C15, for table `t` on `demoConn`: with the definition lookup failing the
columns come back with the placeholder and no error; with the column lookup
failing its error comes back and only its session was opened. -/
theorem usecase_GetSchema_lookups_witness :
    (ConnectionUsecase.GetSchema (some demoConn, none) schemaRun createFailRun "t" []).schema =
      some { Name := "t", Columns := [{ Name := "id", Typ := "UInt64" },
                                      { Name := "name", Typ := "String" }] } ∧
    (ConnectionUsecase.GetSchema (some demoConn, none) schemaRun createFailRun "t" []).createSQL
      = "-- Failed to fetch create SQL" ∧
    (ConnectionUsecase.GetSchema (some demoConn, none) schemaRun createFailRun "t" []).err
      = none ∧
    (ConnectionUsecase.GetSchema (some demoConn, none) schemaFailRun createRun "t" []).err
      = some "code: 60, unknown table" ∧
    (ConnectionUsecase.GetSchema (some demoConn, none) schemaFailRun createRun "t" []).trace =
      (clientImpl.GetSchema schemaFailRun (overrideDatabase demoConn []) "t").trace := by
  have h1 := (usecase_GetSchema_lookups demoConn schemaRun createFailRun "t" []).1
    "code: 390, cannot show create" rfl rfl
  have h2 := (usecase_GetSchema_lookups demoConn schemaFailRun createRun "t" []).2
    "code: 60, unknown table" rfl
  exact ⟨by decide, h1.2.2.1, h1.2.2.2, h2.1, h2.2.2.1⟩

/-- C16: for an existing connection `GetConnectionStatus` returns `"Online"`
and no error when the ping succeeds, `"Offline"` and no error when the ping
fails with any error; it returns an error only when the record lookup failed,
with status `"Error"`; a missing record gives `"Not Found"`, no error and no
call on the driver. -/
theorem GetConnectionStatus_cases (found : Option CHConnection × Option Error)
    (conn : CHConnection) (run : PingRun) :
    ((clientImpl.Ping run conn).err = none →
      (ConnectionUsecase.GetConnectionStatus (some conn, none) run).status = "Online" ∧
      (ConnectionUsecase.GetConnectionStatus (some conn, none) run).err = none) ∧
    (∀ e, (clientImpl.Ping run conn).err = some e →
      (ConnectionUsecase.GetConnectionStatus (some conn, none) run).status = "Offline" ∧
      (ConnectionUsecase.GetConnectionStatus (some conn, none) run).err = none) ∧
    (∀ e, (ConnectionUsecase.GetConnectionStatus found run).err = some e →
      found.2 = some e ∧
      (ConnectionUsecase.GetConnectionStatus found run).status = "Error") ∧
    (∀ e, found.2 = some e →
      (ConnectionUsecase.GetConnectionStatus found run).err = some e ∧
      (ConnectionUsecase.GetConnectionStatus found run).status = "Error") ∧
    ConnectionUsecase.GetConnectionStatus (none, none) run =
      { status := "Not Found", err := none, trace := [] } := by
  refine ⟨?_, ?_, ?_, ?_, rfl⟩
  · intro h
    simp [ConnectionUsecase.GetConnectionStatus, h]
  · intro e h
    simp [ConnectionUsecase.GetConnectionStatus, h]
  · intro e h
    obtain ⟨c, fe⟩ := found
    rcases fe with _ | e'
    · rcases c with _ | c
      · simp [ConnectionUsecase.GetConnectionStatus] at h
      · exfalso
        unfold ConnectionUsecase.GetConnectionStatus at h
        rcases hp : (clientImpl.Ping run c).err with _ | pe <;> simp [hp] at h
    · simp only [ConnectionUsecase.GetConnectionStatus, Option.some.injEq] at h
      subst h
      simp [ConnectionUsecase.GetConnectionStatus]
  · intro e h
    obtain ⟨c, fe⟩ := found
    simp only at h
    subst h
    simp [ConnectionUsecase.GetConnectionStatus]

/-- C16, on `demoConn`: a successful ping gives `"Online"`, an engine
exception gives `"Offline"`, both without error; a failed lookup gives
`"Error"` with its error. -/
theorem GetConnectionStatus_cases_witness :
    (clientImpl.Ping pingOkRun demoConn).err = none ∧
    ((ConnectionUsecase.GetConnectionStatus (some demoConn, none) pingOkRun).status = "Online" ∧
      (ConnectionUsecase.GetConnectionStatus (some demoConn, none) pingOkRun).err = none) ∧
    (clientImpl.Ping pingFailRun demoConn).err
      = some "clickhouse exception: [516] authentication failed" ∧
    ((ConnectionUsecase.GetConnectionStatus (some demoConn, none) pingFailRun).status
        = "Offline" ∧
      (ConnectionUsecase.GetConnectionStatus (some demoConn, none) pingFailRun).err = none) ∧
    ((ConnectionUsecase.GetConnectionStatus (none, some "database is locked") pingOkRun).err
        = some "database is locked" ∧
      (ConnectionUsecase.GetConnectionStatus (none, some "database is locked") pingOkRun).status
        = "Error") :=
  ⟨rfl,
   (GetConnectionStatus_cases (none, none) demoConn pingOkRun).1 rfl,
   by decide,
   (GetConnectionStatus_cases (none, none) demoConn pingFailRun).2.1
     "clickhouse exception: [516] authentication failed" (by decide),
   (GetConnectionStatus_cases (none, some "database is locked") demoConn pingOkRun).2.2.2.1
     _ rfl⟩

/-- The traces `ExecuteQueryWithStats` can leave once the session is open. -/
theorem ExecuteQueryWithStats_trace_cases (run : Run) (conn : CHConnection) (query : String)
    (hopen : run.openErr = none) :
    (ExecuteQueryWithStats run conn query).trace =
      [Event.sessionOpen (getConnection conn), Event.query (some run.queryID) query [],
       Event.sessionClose] ∨
    (ExecuteQueryWithStats run conn query).trace =
      [Event.sessionOpen (getConnection conn), Event.query (some run.queryID) query [],
       Event.cursorClose, Event.exec flushSQL, Event.queryRow statsQuery [run.queryID],
       Event.sessionClose] := by
  unfold ExecuteQueryWithStats
  rcases hq : run.queryRes with e₁ | cur
  · left; simp [hopen]
  · right
    rcases hp : run.probe.scan with e₂ | r <;> simp [hopen, hp]

/-- The traces `ExecuteQueryWithResults` can leave once the session is open. -/
theorem ExecuteQueryWithResults_trace_cases (run : Run) (conn : CHConnection)
    (query : String) (hopen : run.openErr = none) :
    (ExecuteQueryWithResults run conn query).trace =
      [Event.sessionOpen (getConnection conn), Event.query (some run.queryID) query [],
       Event.sessionClose] ∨
    (ExecuteQueryWithResults run conn query).trace =
      [Event.sessionOpen (getConnection conn), Event.query (some run.queryID) query [],
       Event.cursorClose, Event.sessionClose] ∨
    (ExecuteQueryWithResults run conn query).trace =
      [Event.sessionOpen (getConnection conn), Event.query (some run.queryID) query [],
       Event.cursorClose, Event.exec flushSQL, Event.queryRow statsQuery [run.queryID],
       Event.sessionClose] := by
  unfold ExecuteQueryWithResults
  rcases hq : run.queryRes with e₁ | cur
  · left; simp [hopen]
  · rcases hd : scanLoop cur.columns cur.rows [] with e₂ | decoded
    · right; left; simp [hopen, hd]
    · rcases he : cur.err with _ | e₃
      · right; right; simp [hopen, hd, he]
      · right; left; simp [hopen, hd, he]

/-- C17: on every path of `ExecuteQueryWithStats` and of
`ExecuteQueryWithResults` on which the session was opened, the session is
opened once, closed exactly once, and the close is the last call made on the
driver, after every statement. -/
theorem session_closed_once (run : Run) (conn : CHConnection) (query : String)
    (hopen : run.openErr = none) :
    (((ExecuteQueryWithStats run conn query).trace.filter Event.isSessionOpen).length = 1 ∧
      ((ExecuteQueryWithStats run conn query).trace.filter Event.isSessionClose).length = 1 ∧
      (ExecuteQueryWithStats run conn query).trace.getLast? = some Event.sessionClose) ∧
    (((ExecuteQueryWithResults run conn query).trace.filter Event.isSessionOpen).length = 1 ∧
      ((ExecuteQueryWithResults run conn query).trace.filter Event.isSessionClose).length = 1 ∧
      (ExecuteQueryWithResults run conn query).trace.getLast? = some Event.sessionClose) := by
  constructor
  · rcases ExecuteQueryWithStats_trace_cases run conn query hopen with h | h <;> rw [h] <;>
      exact ⟨rfl, rfl, rfl⟩
  · rcases ExecuteQueryWithResults_trace_cases run conn query hopen with h | h | h <;>
      rw [h] <;> exact ⟨rfl, rfl, rfl⟩

/-- C17, on the five exit paths (query error, scan error, terminal error,
probe miss, probe match): one close, and it is the last call. -/
theorem session_closed_once_witness :
    ((ExecuteQueryWithStats failedQueryRun demoConn "SELEC 1").trace.filter
        Event.isSessionClose).length = 1 ∧
    (ExecuteQueryWithResults scanFailRun demoConn "SELECT 1").trace.getLast?
      = some Event.sessionClose ∧
    (ExecuteQueryWithResults brokenCursorRun demoConn "SELECT 1").trace.getLast?
      = some Event.sessionClose ∧
    ((ExecuteQueryWithResults missedRun demoConn "SELECT 1").trace.filter
        Event.isSessionClose).length = 1 ∧
    (ExecuteQueryWithStats matchedRun demoConn "SELECT 1").trace.getLast?
      = some Event.sessionClose :=
  ⟨(session_closed_once failedQueryRun demoConn "SELEC 1" rfl).1.2.1,
   (session_closed_once scanFailRun demoConn "SELECT 1" rfl).2.2.2,
   (session_closed_once brokenCursorRun demoConn "SELECT 1" rfl).2.2.2,
   (session_closed_once missedRun demoConn "SELECT 1" rfl).2.2.1,
   (session_closed_once matchedRun demoConn "SELECT 1" rfl).1.2.2⟩

/-! ### Repeated column names -/

/-- The keys of a map after an assignment: the key is added at the end unless
it was there already. -/
theorem RowMap.keys_assign (m : RowMap) (k : String) (v : Value) :
    (RowMap.assign m k v).map Prod.fst =
      if k ∈ m.map Prod.fst then m.map Prod.fst else m.map Prod.fst ++ [k] := by
  induction m with
  | nil => simp [RowMap.assign]
  | cons kv rest ih =>
    obtain ⟨k', v'⟩ := kv
    by_cases h : k' = k
    · subst h
      simp [RowMap.assign]
    · have h' : ¬ k = k' := fun hk => h hk.symm
      by_cases hm : k ∈ rest.map Prod.fst
      · simp only [RowMap.assign, h, if_false, List.map_cons, ih, hm, if_true, List.mem_cons,
          or_true]
      · simp only [RowMap.assign, h, if_false, List.map_cons, ih, hm, List.mem_cons, h',
          or_self, List.cons_append]

/-- An assignment keeps the keys pairwise distinct. -/
theorem RowMap.keys_assign_nodup (m : RowMap) (k : String) (v : Value)
    (h : (m.map Prod.fst).Nodup) : ((RowMap.assign m k v).map Prod.fst).Nodup := by
  rw [RowMap.keys_assign]
  by_cases hm : k ∈ m.map Prod.fst
  · rw [if_pos hm]; exact h
  · rw [if_neg hm]
    exact List.Nodup.append h (List.nodup_singleton k) (by
      intro x hx hx'
      rw [List.mem_singleton] at hx'
      exact hm (hx' ▸ hx))

/-- The keys after an assignment are the old keys and the assigned key. -/
theorem RowMap.mem_keys_assign (m : RowMap) (k : String) (v : Value) (x : String) :
    x ∈ (RowMap.assign m k v).map Prod.fst ↔ x ∈ m.map Prod.fst ∨ x = k := by
  rw [RowMap.keys_assign]
  by_cases hm : k ∈ m.map Prod.fst
  · rw [if_pos hm]
    constructor
    · exact Or.inl
    · rintro (h | h)
      · exact h
      · exact h ▸ hm
  · rw [if_neg hm]
    simp

/-- The column loop keeps the keys pairwise distinct, and with one value per
column its keys are the keys before and the column names. -/
theorem foldl_assign_keys (cols : List String) (vals : List Value) (m : RowMap)
    (hlen : vals.length = cols.length) (hm : (m.map Prod.fst).Nodup) :
    (((cols.zip vals).foldl (fun m cv => RowMap.assign m cv.1 cv.2) m).map Prod.fst).Nodup ∧
    ∀ x, x ∈ ((cols.zip vals).foldl (fun m cv => RowMap.assign m cv.1 cv.2) m).map Prod.fst ↔
      x ∈ m.map Prod.fst ∨ x ∈ cols := by
  induction cols generalizing vals m with
  | nil => simp [hm]
  | cons c cols ih =>
    cases vals with
    | nil => simp at hlen
    | cons v vals =>
      have hlen' : vals.length = cols.length := by simpa using hlen
      have h := ih vals (RowMap.assign m c v) hlen' (RowMap.keys_assign_nodup m c v hm)
      simp only [List.zip_cons_cons, List.foldl_cons]
      refine ⟨h.1, fun x => ?_⟩
      rw [h.2 x, RowMap.mem_keys_assign, List.mem_cons, or_assoc]

/-- With one value per column, a decoded row has one entry per distinct
column name. -/
theorem buildRowMap_length (cols : List String) (vals : List Value)
    (hlen : vals.length = cols.length) :
    ((buildRowMap cols vals).map Prod.fst).Nodup ∧
    (buildRowMap cols vals).length = cols.dedup.length := by
  have h := foldl_assign_keys cols vals [] hlen (by simp)
  refine ⟨h.1, ?_⟩
  have hperm : ((buildRowMap cols vals).map Prod.fst).Perm cols.dedup := by
    refine (List.perm_ext_iff_of_nodup h.1 (List.nodup_dedup cols)).mpr (fun x => ?_)
    rw [List.mem_dedup]
    have hx := h.2 x
    simpa [buildRowMap] using hx
  have hl := hperm.length_eq
  rwa [List.length_map] at hl

/-- A column list with a repeated name has fewer distinct names than
columns. -/
theorem dedup_length_lt (cols : List String) (h : ¬ cols.Nodup) :
    cols.dedup.length < cols.length := by
  have hle : cols.dedup.length ≤ cols.length := (List.dedup_sublist cols).length_le
  rcases Nat.lt_or_ge cols.dedup.length cols.length with hlt | hge
  · exact hlt
  · exfalso
    have heq : cols.dedup = cols :=
      (List.dedup_sublist cols).eq_of_length (Nat.le_antisymm hle hge)
    exact h (List.dedup_eq_self.mp heq)

/-- The column loop stores under a name the value of the last column that
carries it. -/
theorem foldl_assign_index_last (cols : List String) (vals : List Value) (m : RowMap)
    (hlen : vals.length = cols.length) (j : Nat) (c : String)
    (hc : cols[j]? = some c) (hlast : c ∉ cols.drop (j + 1)) :
    ∃ v, vals[j]? = some v ∧
      RowMap.index ((cols.zip vals).foldl (fun m cv => RowMap.assign m cv.1 cv.2) m) c
        = some v := by
  induction cols generalizing vals m j with
  | nil => simp at hc
  | cons c₀ cols ih =>
    cases vals with
    | nil => simp at hlen
    | cons v vals =>
      simp only [List.zip_cons_cons, List.foldl_cons]
      cases j with
      | zero =>
        simp only [List.getElem?_cons_zero, Option.some.injEq] at hc
        subst hc
        have hnot : c₀ ∉ cols := by simpa using hlast
        refine ⟨v, by simp, ?_⟩
        rw [foldl_assign_index_of_not_mem cols vals _ _ hnot, RowMap.index_assign_self]
      | succ j =>
        simp only [List.getElem?_cons_succ] at hc ⊢
        exact ih vals _ (by simpa using hlen) j hc (by simpa using hlast)

/-- C18: when the cursor's column list repeats a name, every decoded row (of
a cursor row holding one value per column) has at most one entry per name and
exactly as many entries as there are distinct column names, fewer than the
length of `Columns`; under a name it holds the value of the last column that
carries the name, so the values of the earlier ones are not in the map. -/
theorem ExecuteQueryWithResults_duplicate_columns (run : Run) (conn : CHConnection)
    (query : String) (cur : Cursor) (vals : List (List Value))
    (hopen : run.openErr = none) (hq : run.queryRes = .ok cur)
    (hrows : cur.rows = vals.map Except.ok) (herr : cur.err = none)
    (hdup : ¬ cur.columns.Nodup) :
    ∃ res, (ExecuteQueryWithResults run conn query).value = some res ∧
      res.Columns = cur.columns ∧
      ∀ (i : Nat) (row : List Value), vals[i]? = some row →
        row.length = cur.columns.length →
        ∃ m, res.Rows[i]? = some m ∧
          (m.map Prod.fst).Nodup ∧
          m.length = cur.columns.dedup.length ∧
          m.length < res.Columns.length ∧
          ∀ (j : Nat) (c : String), cur.columns[j]? = some c →
            c ∉ cur.columns.drop (j + 1) →
            ∃ v, row[j]? = some v ∧ RowMap.index m c = some v := by
  have hdec : scanLoop cur.columns cur.rows [] = .ok (vals.map (buildRowMap cur.columns)) := by
    rw [hrows, scanLoop_ok, List.nil_append]
  have hrun : ∃ st tr, ExecuteQueryWithResults run conn query =
      { value := some { Columns := cur.columns, Rows := vals.map (buildRowMap cur.columns),
                        Stats := st }
        err := none
        trace := tr } := by
    simp only [ExecuteQueryWithResults, hopen, hq, hdec, herr]
    exact ⟨_, _, rfl⟩
  obtain ⟨st, tr, hrun⟩ := hrun
  rw [hrun]
  refine ⟨_, rfl, rfl, ?_⟩
  intro i row hi hlen
  have hb := buildRowMap_length cur.columns row hlen
  refine ⟨buildRowMap cur.columns row, by simp [hi], hb.1, hb.2, ?_, ?_⟩
  · rw [hb.2]
    exact dedup_length_lt cur.columns hdup
  · intro j c hc hlast
    exact foldl_assign_index_last cur.columns row [] hlen j c hc hlast

/-- C18, at `dupRun` (columns `a`, `b`, `a`; one row `1`, `x`, `3`): the
decoded row has the two entries `a ↦ 3` and `b ↦ x`. -/
theorem ExecuteQueryWithResults_duplicate_columns_witness :
    ¬ dupCursor.columns.Nodup ∧
    (∃ res, (ExecuteQueryWithResults dupRun demoConn "SELECT a, b, a FROM t").value = some res ∧
      res.Columns = dupCursor.columns ∧
      ∀ (i : Nat) (row : List Value),
        [[Value.int 1, Value.str "x", Value.int 3]][i]? = some row →
        row.length = dupCursor.columns.length →
        ∃ m, res.Rows[i]? = some m ∧
          (m.map Prod.fst).Nodup ∧
          m.length = dupCursor.columns.dedup.length ∧
          m.length < res.Columns.length ∧
          ∀ (j : Nat) (c : String), dupCursor.columns[j]? = some c →
            c ∉ dupCursor.columns.drop (j + 1) →
            ∃ v, row[j]? = some v ∧ RowMap.index m c = some v) ∧
    (ExecuteQueryWithResults dupRun demoConn "SELECT a, b, a FROM t").value.map
        (fun res => res.Rows.map (fun m => (m.length, RowMap.index m "a" matches
          some (Value.int 3))))
      = some [(2, true)] :=
  ⟨by decide,
   ExecuteQueryWithResults_duplicate_columns dupRun demoConn "SELECT a, b, a FROM t" dupCursor
     [[Value.int 1, Value.str "x", Value.int 3]] rfl rfl rfl rfl (by decide),
   rfl⟩

/-- C19: `ExecuteQueryWithStats` returns the same value, error and calls for
every cursor the target query may return, whatever its rows and its terminal
error; on a run whose cursor ends with a terminal error
`ExecuteQueryWithResults` returns that error while `ExecuteQueryWithStats`
returns stats and no error. -/
theorem ExecuteQueryWithStats_ignores_cursor (run : Run) (conn : CHConnection)
    (query : String) (cur cur' : Cursor) :
    ExecuteQueryWithStats { run with queryRes := .ok cur } conn query =
      ExecuteQueryWithStats { run with queryRes := .ok cur' } conn query ∧
    (∀ (vals : List (List Value)) (e : Error), run.openErr = none →
      cur.rows = vals.map Except.ok → cur.err = some e →
      (ExecuteQueryWithResults { run with queryRes := .ok cur } conn query).err = some e ∧
      (ExecuteQueryWithResults { run with queryRes := .ok cur } conn query).value = none ∧
      (ExecuteQueryWithStats { run with queryRes := .ok cur } conn query).err = none ∧
      (ExecuteQueryWithStats { run with queryRes := .ok cur } conn query).value.isSome
        = true) := by
  refine ⟨rfl, ?_⟩
  intro vals e hopen hrows herr
  have hr := ExecuteQueryWithResults_terminal_error { run with queryRes := .ok cur } conn query
    cur vals e hopen rfl hrows herr
  have hs : (ExecuteQueryWithStats { run with queryRes := .ok cur } conn query).err = none := by
    unfold ExecuteQueryWithStats
    rcases hp : run.probe.scan with e₂ | r <;> simp [hopen, hp]
  exact ⟨hr.2.1, hr.1, hs, ExecuteQueryWithStats_value_isSome _ _ _ hs⟩

/-- C19, at `brokenCursorRun`: `ExecuteQueryWithResults` fails with the
cursor's terminal error, `ExecuteQueryWithStats` returns the log's stats. -/
theorem ExecuteQueryWithStats_ignores_cursor_witness :
    (ExecuteQueryWithResults brokenCursorRun demoConn "SELECT 1").err
      = some "read: connection reset" ∧
    (ExecuteQueryWithStats brokenCursorRun demoConn "SELECT 1").err = none ∧
    (ExecuteQueryWithStats brokenCursorRun demoConn "SELECT 1").value.isSome = true ∧
    ExecuteQueryWithStats brokenCursorRun demoConn "SELECT 1" =
      ExecuteQueryWithStats { brokenCursorRun with queryRes := .ok demoCursor } demoConn
        "SELECT 1" := by
  have h := ExecuteQueryWithStats_ignores_cursor brokenCursorRun demoConn "SELECT 1"
    brokenCursor demoCursor
  have h2 := h.2 [[Value.int 1, Value.str "x"], [Value.int 2, Value.null]]
    "read: connection reset" rfl rfl rfl
  exact ⟨h2.1, h2.2.2.1, h2.2.2.2, h.1⟩

/-- C20: when gorm reports that no record has the id, `FindByID` returns no
record and no error, and on that answer `CompareQueries` and `ExecuteQuery`
each return no result and no error without any call on the driver. -/
theorem not_found_returns_nothing (r : RepoRun) (id : Int) (run1 run2 run : Run)
    (query1 query2 query : String)
    (hdl : r.deadlineErr = none) (hnf : r.first id = FirstResult.recordNotFound) :
    Connection.FindByID r id = (none, none) ∧
    ((CompareQueries (Connection.FindByID r id) run1 run2 query1 query2).value = none ∧
      (CompareQueries (Connection.FindByID r id) run1 run2 query1 query2).err = none ∧
      (CompareQueries (Connection.FindByID r id) run1 run2 query1 query2).trace = []) ∧
    ((ConnectionUsecase.ExecuteQuery (Connection.FindByID r id) run query).value = none ∧
      (ConnectionUsecase.ExecuteQuery (Connection.FindByID r id) run query).err = none ∧
      (ConnectionUsecase.ExecuteQuery (Connection.FindByID r id) run query).trace = []) := by
  have hf : Connection.FindByID r id = (none, none) := by
    simp only [Connection.FindByID, hdl, hnf]
  rw [hf]
  exact ⟨rfl, ⟨rfl, rfl, rfl⟩, ⟨rfl, rfl, rfl⟩⟩

/-- C20, with `emptyRepo` and id `7`: nothing is returned and the driver is
not called, although the engine would have answered. -/
theorem not_found_returns_nothing_witness :
    Connection.FindByID emptyRepo 7 = (none, none) ∧
    ((CompareQueries (Connection.FindByID emptyRepo 7) matchedRun matchedRun "SELECT 1"
        "SELECT 2").value = none ∧
      (CompareQueries (Connection.FindByID emptyRepo 7) matchedRun matchedRun "SELECT 1"
        "SELECT 2").err = none ∧
      (CompareQueries (Connection.FindByID emptyRepo 7) matchedRun matchedRun "SELECT 1"
        "SELECT 2").trace = []) ∧
    ((ConnectionUsecase.ExecuteQuery (Connection.FindByID emptyRepo 7) matchedRun
        "SELECT 1").value = none ∧
      (ConnectionUsecase.ExecuteQuery (Connection.FindByID emptyRepo 7) matchedRun
        "SELECT 1").err = none ∧
      (ConnectionUsecase.ExecuteQuery (Connection.FindByID emptyRepo 7) matchedRun
        "SELECT 1").trace = []) :=
  not_found_returns_nothing emptyRepo 7 matchedRun matchedRun matchedRun "SELECT 1" "SELECT 2"
    "SELECT 1" rfl rfl

end ChManager
